import Mathlib

/-!
Verification of a cycle-driven DMG emulator core (JavaScript source) via a
shallow embedding in Lean 4.

Conventions of the embedding:
* JavaScript numbers holding machine quantities are modelled as `Nat`
  (with explicit `&&& 0xFF` / `% n` masking exactly where the source masks);
  where the source can produce a negative intermediate (two's-complement
  wrap via `& 0xFF` or `& 0xFFFF` on a negative value) we compute in `Int`
  and reduce with a Euclidean `%`, which agrees with the JavaScript result.
* `Uint8Array` fields are modelled as functions `Nat → Nat`; a store masks
  the value with `&&& 0xFF` (which is what a `Uint8Array` store does).
* Stateful methods become pure functions returning the updated record.
* While-loops become well-founded recursive functions on the loop counter.
-/

namespace GB

/-- Pointwise update of a memory modelled as a function. -/
def upd (f : Nat → Nat) (i v : Nat) : Nat → Nat :=
  fun j => if j = i then v else f j

/-- Two's-complement reduction of a possibly negative intermediate to a byte,
as JavaScript `x & 0xFF` does on the integers produced by the source. -/
def wrap8 (x : Int) : Nat := (x % 256).toNat

/-- Two's-complement reduction to 16 bits, as JavaScript `x & 0xFFFF`. -/
def wrap16 (x : Int) : Nat := (x % 65536).toNat

/-- Sign extension of the low byte, as the source's `(v << 24) >> 24`. -/
def signed8 (v : Nat) : Int :=
  if v &&& 0x80 ≠ 0 then Int.ofNat (v &&& 0xFF) - 256 else Int.ofNat (v &&& 0xFF)

/-! ## Input (joypad latch), from the Input class -/

/-- Joypad state: `buttons` and `directions` are the active-low nibbles,
`p1` is the last value of the 0xFF00 register (selection lines). -/
structure Input where
  buttons : Nat
  directions : Nat
  p1 : Nat
  deriving Repr, DecidableEq

/-- Reset / constructor state of the joypad. -/
def inputReset : Input := ⟨0x0F, 0x0F, 0xFF⟩

/-- Read of the P1 register (0xFF00), translated from `Input.read`:
start from `p1 | 0x0F`, overwrite the low nibble with the button nibble when
bit 5 is clear, then with the direction nibble when bit 4 is clear, and force
the top two bits. -/
def Input.read (i : Input) : Nat :=
  let result := i.p1 ||| 0x0F
  let result := if i.p1 &&& 0x20 = 0 then (result &&& 0xF0) ||| i.buttons else result
  let result := if i.p1 &&& 0x10 = 0 then (result &&& 0xF0) ||| i.directions else result
  result ||| 0xC0

/-- Write of the P1 register (0xFF00): only the selection bits 4-5 are stored. -/
def Input.write (i : Input) (value : Nat) : Input :=
  { i with p1 := (value &&& 0x30) ||| (i.p1 &&& 0xCF) }

/-! ## Timer, from the Timer class -/

structure Timer where
  div : Nat
  tima : Nat
  tma : Nat
  tac : Nat
  divCycles : Nat
  timaCycles : Nat
  deriving Repr, DecidableEq

def timerReset : Timer := ⟨0, 0, 0, 0, 0, 0⟩

/-- The DIV while-loop of `Timer.step`: subtract 256 and bump DIV while at
least 256 cycles were accumulated. -/
def divLoop (dc dv : Nat) : Nat × Nat :=
  if 256 ≤ dc then divLoop (dc - 256) ((dv + 1) &&& 0xFF) else (dc, dv)
  termination_by dc
  decreasing_by omega

/-- One iteration of the TIMA while-loop body of `Timer.step`: increment, and
on overflow past 0xFF reload from TMA and raise IF bit 2. The `iflag`
argument models `mmu.io[0x0F]`. Returns the new TIMA and the new IF byte. -/
def timaTick (tima tma iflag : Nat) : Nat × Nat :=
  let t := tima + 1
  if 0xFF < t then (tma, iflag ||| 0x04) else (t, iflag)

/-- The TIMA while-loop of `Timer.step`. In the source the threshold is
always one of 1024/16/64/256, hence positive; the positivity test in the
guard only rules out a loop the source can never enter. Returns the leftover
cycle count, the new TIMA and the new IF byte. -/
def timaLoop (threshold tc tima tma iflag : Nat) : Nat × Nat × Nat :=
  if _h : 0 < threshold ∧ threshold ≤ tc then
    let r := timaTick tima tma iflag
    timaLoop threshold (tc - threshold) r.1 tma r.2
  else (tc, tima, iflag)
  termination_by tc
  decreasing_by omega

/-- TIMA tick period selected by the low two bits of TAC
(the `frequencies` table of the source). -/
def freqThreshold (tac : Nat) : Nat :=
  match tac &&& 0x03 with
  | 0 => 1024
  | 1 => 16
  | 2 => 64
  | _ => 256

/-- Translation of `Timer.step`: advance DIV; if TAC bit 2 is set, advance
TIMA at the selected rate. `iflag` models `mmu.io[0x0F]` and is returned
updated. -/
def Timer.step (t : Timer) (cycles iflag : Nat) : Timer × Nat :=
  let d := divLoop (t.divCycles + cycles) t.div
  if t.tac &&& 0x04 = 0 then
    ({ t with divCycles := d.1, div := d.2 }, iflag)
  else
    let th := freqThreshold t.tac
    let r := timaLoop th (t.timaCycles + cycles) t.tima t.tma iflag
    ({ t with divCycles := d.1, div := d.2, timaCycles := r.1, tima := r.2.1 }, r.2.2)

/-! ## PPU (pixel unit), from the PPU class.

The frame buffer holds host colors and is not consulted by any register-level
behavior verified here; the embedding models every register and counter of
the PPU and the register-visible effect of `renderScanline` (the window line
counter), omitting the pixel contents of the frame buffer. -/

structure PPU where
  lcdc : Nat
  stat : Nat
  scy : Nat
  scx : Nat
  ly : Nat
  lyc : Nat
  wy : Nat
  wx : Nat
  bgp : Nat
  obp0 : Nat
  obp1 : Nat
  mode : Nat
  modeCycles : Nat
  windowLine : Nat
  deriving Repr, DecidableEq

/-- Reset state of the PPU (from `PPU.reset`). -/
def ppuReset : PPU :=
  { lcdc := 0x91, stat := 0x85, scy := 0, scx := 0, ly := 0, lyc := 0,
    wy := 0, wx := 0, bgp := 0xFC, obp0 := 0xFF, obp1 := 0xFF,
    mode := 2, modeCycles := 0, windowLine := 0 }

/-- Translation of `PPU.readRegister`. -/
def PPU.readRegister (p : PPU) (addr : Nat) : Nat :=
  if addr = 0xFF40 then p.lcdc
  else if addr = 0xFF41 then
    (p.stat &&& 0xFC) ||| (if p.ly = p.lyc then 0x04 else 0) ||| p.mode
  else if addr = 0xFF42 then p.scy
  else if addr = 0xFF43 then p.scx
  else if addr = 0xFF44 then p.ly
  else if addr = 0xFF45 then p.lyc
  else if addr = 0xFF47 then p.bgp
  else if addr = 0xFF48 then p.obp0
  else if addr = 0xFF49 then p.obp1
  else if addr = 0xFF4A then p.wy
  else if addr = 0xFF4B then p.wx
  else 0xFF

/-- Translation of `PPU.writeRegister`. A write to LCDC that clears bit 7
while it was set resets LY, the mode and the mode cycle counter; a write
that sets bit 7 only stores the new LCDC value. -/
def PPU.writeRegister (p : PPU) (addr value : Nat) : PPU :=
  if addr = 0xFF40 then
    let wasEnabled := p.lcdc &&& 0x80 ≠ 0
    let isEnabled := value &&& 0x80 ≠ 0
    if wasEnabled ∧ ¬isEnabled then
      { p with lcdc := value, ly := 0, mode := 0, modeCycles := 0 }
    else
      { p with lcdc := value }
  else if addr = 0xFF41 then { p with stat := (value &&& 0xF8) ||| (p.stat &&& 0x07) }
  else if addr = 0xFF42 then { p with scy := value }
  else if addr = 0xFF43 then { p with scx := value }
  else if addr = 0xFF45 then { p with lyc := value }
  else if addr = 0xFF47 then { p with bgp := value }
  else if addr = 0xFF48 then { p with obp0 := value }
  else if addr = 0xFF49 then { p with obp1 := value }
  else if addr = 0xFF4A then { p with wy := value }
  else if addr = 0xFF4B then { p with wx := value }
  else p

/-- Register-visible effect of `renderWindow`: when the window is reachable
on this scanline (`wy ≤ line` and `wx ≤ 166`) the loop always draws at least
one window pixel, so the internal window line counter advances. -/
def PPU.renderWindowReg (p : PPU) : PPU :=
  if p.ly < p.wy ∨ 166 < p.wx then p
  else { p with windowLine := p.windowLine + 1 }

/-- Register-visible effect of `renderScanline` (frame-buffer pixels are not
modelled): background and sprite rendering touch no register; the window
pass advances the window line counter when it draws. -/
def PPU.renderScanlineReg (p : PPU) : PPU :=
  if 144 ≤ p.ly then p
  else if p.lcdc &&& 0x20 ≠ 0 ∧ p.lcdc &&& 0x01 ≠ 0 then p.renderWindowReg
  else p

/-- Translation of `PPU.step`: the mode automaton. `iflag` models
`mmu.io[0x0F]`; the returned Bool is `frameComplete`. Note the source
processes at most one mode transition per call. -/
def PPU.step (p : PPU) (cycles iflag : Nat) : PPU × Nat × Bool :=
  if p.lcdc &&& 0x80 = 0 then (p, iflag, false)
  else
    let mc := p.modeCycles + cycles
    match p.mode with
    | 2 =>
      if 80 ≤ mc then ({ p with modeCycles := mc - 80, mode := 3 }, iflag, false)
      else ({ p with modeCycles := mc }, iflag, false)
    | 3 =>
      if 172 ≤ mc then
        let p1 := PPU.renderScanlineReg { p with modeCycles := mc - 172, mode := 0 }
        let i1 := if p1.stat &&& 0x08 ≠ 0 then iflag ||| 0x02 else iflag
        (p1, i1, false)
      else ({ p with modeCycles := mc }, iflag, false)
    | 0 =>
      if 204 ≤ mc then
        let p1 := { p with modeCycles := mc - 204, ly := p.ly + 1 }
        let i1 := if p1.ly = p1.lyc ∧ p1.stat &&& 0x40 ≠ 0 then iflag ||| 0x02 else iflag
        if p1.ly = 144 then
          let p2 := { p1 with mode := 1 }
          let i2 := i1 ||| 0x01
          let i3 := if p2.stat &&& 0x10 ≠ 0 then i2 ||| 0x02 else i2
          (p2, i3, true)
        else
          let p2 := { p1 with mode := 2 }
          let i2 := if p2.stat &&& 0x20 ≠ 0 then i1 ||| 0x02 else i1
          (p2, i2, false)
      else ({ p with modeCycles := mc }, iflag, false)
    | 1 =>
      if 456 ≤ mc then
        let p1 := { p with modeCycles := mc - 456, ly := p.ly + 1 }
        let i1 := if p1.ly = p1.lyc ∧ p1.stat &&& 0x40 ≠ 0 then iflag ||| 0x02 else iflag
        if 153 < p1.ly then
          let p2 := { p1 with ly := 0, windowLine := 0, mode := 2 }
          let i2 := if p2.stat &&& 0x20 ≠ 0 then i1 ||| 0x02 else i1
          let i3 := if p2.lyc = 0 ∧ p2.stat &&& 0x40 ≠ 0 then i2 ||| 0x02 else i2
          (p2, i3, false)
        else (p1, i1, false)
      else ({ p with modeCycles := mc }, iflag, false)
    | _ => ({ p with modeCycles := mc }, iflag, false)

/-! ## Audio ring buffer, from `APU.step` (producer) and `APU.processAudio`
(consumer). Sample payloads are abstracted to `Nat` values; the claims
concern only the index discipline and which cells are written. -/

/-- Length of `sampleBuffer` (a `Float32Array(16384)`). -/
def bufLen : Nat := 16384

/-- Producer step, from the ring-buffer write in `APU.step` (performed for
every generated sample, with no fullness test): store the left sample at the
write index, the right sample at the next slot, and advance the write index
by two, all modulo the buffer length. -/
def ringWrite (buf : Nat → Nat) (w left right : Nat) : (Nat → Nat) × Nat :=
  let b1 := upd buf w left
  let b2 := upd b1 ((w + 1) % bufLen) right
  (b2, (w + 2) % bufLen)

/-- Consumer step, from one iteration of the `processAudio` loop: when the
read index differs from the write index, emit the pair at the read index and
advance it by two modulo the length; otherwise emit silence and stay. The
result is (left, right, new read index). -/
def ringRead (buf : Nat → Nat) (r w : Nat) : Nat × Nat × Nat :=
  if r ≠ w then (buf r, buf ((r + 1) % bufLen), (r + 2) % bufLen)
  else (0, 0, r)

/-! ## APU register state, from the APU class.

The per-channel `output` fields and the floating-point mixer are host-audio
concerns and are not modelled; every register-visible field is. Frequency
timers are kept as `Nat` (they are only ever loaded with register-derived
values by the operations modelled here). -/

structure Ch1 where
  enabled : Bool
  dacEnabled : Bool
  sweepPeriod : Nat
  sweepNegate : Bool
  sweepShift : Nat
  sweepTimer : Nat
  sweepEnabled : Bool
  sweepShadow : Nat
  duty : Nat
  lengthCounter : Nat
  lengthEnabled : Bool
  envInitial : Nat
  envDirection : Bool
  envPeriod : Nat
  envTimer : Nat
  envVolume : Nat
  frequency : Nat
  timer : Nat
  dutyPos : Nat
  deriving Repr, DecidableEq

structure Ch2 where
  enabled : Bool
  dacEnabled : Bool
  duty : Nat
  lengthCounter : Nat
  lengthEnabled : Bool
  envInitial : Nat
  envDirection : Bool
  envPeriod : Nat
  envTimer : Nat
  envVolume : Nat
  frequency : Nat
  timer : Nat
  dutyPos : Nat
  deriving Repr, DecidableEq

structure Ch3 where
  enabled : Bool
  dacEnabled : Bool
  lengthCounter : Nat
  lengthEnabled : Bool
  volumeCode : Nat
  frequency : Nat
  timer : Nat
  wavePos : Nat
  deriving Repr, DecidableEq

structure Ch4 where
  enabled : Bool
  dacEnabled : Bool
  lengthCounter : Nat
  lengthEnabled : Bool
  envInitial : Nat
  envDirection : Bool
  envPeriod : Nat
  envTimer : Nat
  envVolume : Nat
  clockShift : Nat
  widthMode : Bool
  divisorCode : Nat
  timer : Nat
  lfsr : Nat
  deriving Repr, DecidableEq

structure APU where
  masterEnable : Bool
  masterVolLeft : Nat
  masterVolRight : Nat
  ch1Left : Bool
  ch1Right : Bool
  ch2Left : Bool
  ch2Right : Bool
  ch3Left : Bool
  ch3Right : Bool
  ch4Left : Bool
  ch4Right : Bool
  ch1 : Ch1
  ch2 : Ch2
  ch3 : Ch3
  ch4 : Ch4
  waveRam : Nat → Nat
  bufferWritePos : Nat
  bufferReadPos : Nat

/-- Constructor state of channel 1. -/
def ch1Init : Ch1 :=
  { enabled := false, dacEnabled := false, sweepPeriod := 0, sweepNegate := false,
    sweepShift := 0, sweepTimer := 0, sweepEnabled := false, sweepShadow := 0,
    duty := 0, lengthCounter := 0, lengthEnabled := false, envInitial := 0,
    envDirection := false, envPeriod := 0, envTimer := 0, envVolume := 0,
    frequency := 0, timer := 0, dutyPos := 0 }

/-- Constructor state of channel 2. -/
def ch2Init : Ch2 :=
  { enabled := false, dacEnabled := false, duty := 0, lengthCounter := 0,
    lengthEnabled := false, envInitial := 0, envDirection := false,
    envPeriod := 0, envTimer := 0, envVolume := 0, frequency := 0,
    timer := 0, dutyPos := 0 }

/-- Constructor state of channel 3. -/
def ch3Init : Ch3 :=
  { enabled := false, dacEnabled := false, lengthCounter := 0,
    lengthEnabled := false, volumeCode := 0, frequency := 0, timer := 0,
    wavePos := 0 }

/-- Constructor state of channel 4. -/
def ch4Init : Ch4 :=
  { enabled := false, dacEnabled := false, lengthCounter := 0,
    lengthEnabled := false, envInitial := 0, envDirection := false,
    envPeriod := 0, envTimer := 0, envVolume := 0, clockShift := 0,
    widthMode := false, divisorCode := 0, timer := 0, lfsr := 0x7FFF }

/-- Constructor state of the APU. -/
def apuInit : APU :=
  { masterEnable := true, masterVolLeft := 7, masterVolRight := 7,
    ch1Left := true, ch1Right := true, ch2Left := true, ch2Right := true,
    ch3Left := true, ch3Right := true, ch4Left := true, ch4Right := true,
    ch1 := ch1Init, ch2 := ch2Init, ch3 := ch3Init, ch4 := ch4Init,
    waveRam := fun _ => 0, bufferWritePos := 0, bufferReadPos := 0 }

/-- Translation of `APU.reset`: clears the ring-buffer positions, disables
the four channels and clears wave RAM. -/
def APU.reset (a : APU) : APU :=
  { a with bufferWritePos := 0, bufferReadPos := 0,
           ch1 := { a.ch1 with enabled := false },
           ch2 := { a.ch2 with enabled := false },
           ch3 := { a.ch3 with enabled := false },
           ch4 := { a.ch4 with enabled := false },
           waveRam := fun _ => 0 }

/-- The frequency computed by `calculateSweep`:
`shadow ± (shadow >> shift)` according to the negate flag. -/
def calcSweepFreq (c : Ch1) : Nat :=
  let d := c.sweepShadow >>> c.sweepShift
  if c.sweepNegate then c.sweepShadow - d else c.sweepShadow + d

/-- Translation of `APU.calculateSweep`: computes the swept frequency and,
as a side effect, disables channel 1 when it exceeds 2047. Returns the
updated APU and the computed frequency. -/
def APU.calculateSweep (a : APU) : APU × Nat :=
  let f := calcSweepFreq a.ch1
  (if 2047 < f then { a with ch1 := { a.ch1 with enabled := false } } else a, f)

/-- Translation of `APU.readRegister`. -/
def APU.readRegister (a : APU) (addr : Nat) : Nat :=
  if addr = 0xFF10 then
    0x80 ||| (a.ch1.sweepPeriod <<< 4) ||| (if a.ch1.sweepNegate then 0x08 else 0) ||| a.ch1.sweepShift
  else if addr = 0xFF11 then (a.ch1.duty <<< 6) ||| 0x3F
  else if addr = 0xFF12 then
    (a.ch1.envInitial <<< 4) ||| (if a.ch1.envDirection then 0x08 else 0) ||| a.ch1.envPeriod
  else if addr = 0xFF13 then 0xFF
  else if addr = 0xFF14 then (if a.ch1.lengthEnabled then 0x40 else 0) ||| 0xBF
  else if addr = 0xFF16 then (a.ch2.duty <<< 6) ||| 0x3F
  else if addr = 0xFF17 then
    (a.ch2.envInitial <<< 4) ||| (if a.ch2.envDirection then 0x08 else 0) ||| a.ch2.envPeriod
  else if addr = 0xFF18 then 0xFF
  else if addr = 0xFF19 then (if a.ch2.lengthEnabled then 0x40 else 0) ||| 0xBF
  else if addr = 0xFF1A then (if a.ch3.dacEnabled then 0x80 else 0) ||| 0x7F
  else if addr = 0xFF1B then 0xFF
  else if addr = 0xFF1C then (a.ch3.volumeCode <<< 5) ||| 0x9F
  else if addr = 0xFF1D then 0xFF
  else if addr = 0xFF1E then (if a.ch3.lengthEnabled then 0x40 else 0) ||| 0xBF
  else if addr = 0xFF20 then 0xFF
  else if addr = 0xFF21 then
    (a.ch4.envInitial <<< 4) ||| (if a.ch4.envDirection then 0x08 else 0) ||| a.ch4.envPeriod
  else if addr = 0xFF22 then
    (a.ch4.clockShift <<< 4) ||| (if a.ch4.widthMode then 0x08 else 0) ||| a.ch4.divisorCode
  else if addr = 0xFF23 then (if a.ch4.lengthEnabled then 0x40 else 0) ||| 0xBF
  else if addr = 0xFF24 then (a.masterVolLeft <<< 4) ||| a.masterVolRight ||| 0x88
  else if addr = 0xFF25 then
    (if a.ch4Left then 0x80 else 0) ||| (if a.ch3Left then 0x40 else 0) |||
    (if a.ch2Left then 0x20 else 0) ||| (if a.ch1Left then 0x10 else 0) |||
    (if a.ch4Right then 0x08 else 0) ||| (if a.ch3Right then 0x04 else 0) |||
    (if a.ch2Right then 0x02 else 0) ||| (if a.ch1Right then 0x01 else 0)
  else if addr = 0xFF26 then
    (if a.masterEnable then 0x80 else 0) ||| 0x70 |||
    (if a.ch4.enabled then 0x08 else 0) ||| (if a.ch3.enabled then 0x04 else 0) |||
    (if a.ch2.enabled then 0x02 else 0) ||| (if a.ch1.enabled then 0x01 else 0)
  else if 0xFF30 ≤ addr ∧ addr ≤ 0xFF3F then a.waveRam (addr - 0xFF30)
  else 0xFF

/-- Translation of `APU.writeRegister`. While the master enable is off, all
writes except to NR52 and wave RAM are ignored. -/
def APU.writeRegister (a : APU) (addr value : Nat) : APU :=
  if ¬a.masterEnable ∧ addr ≠ 0xFF26 ∧ addr < 0xFF30 then a
  else if addr = 0xFF10 then
    { a with ch1 := { a.ch1 with
        sweepPeriod := (value >>> 4) &&& 0x07,
        sweepNegate := value &&& 0x08 ≠ 0,
        sweepShift := value &&& 0x07 } }
  else if addr = 0xFF11 then
    { a with ch1 := { a.ch1 with
        duty := (value >>> 6) &&& 0x03,
        lengthCounter := 64 - (value &&& 0x3F) } }
  else if addr = 0xFF12 then
    let dac := value &&& 0xF8 ≠ 0
    { a with ch1 := { a.ch1 with
        envInitial := (value >>> 4) &&& 0x0F,
        envDirection := value &&& 0x08 ≠ 0,
        envPeriod := value &&& 0x07,
        dacEnabled := dac,
        enabled := if dac then a.ch1.enabled else false } }
  else if addr = 0xFF13 then
    { a with ch1 := { a.ch1 with frequency := (a.ch1.frequency &&& 0x700) ||| value } }
  else if addr = 0xFF14 then
    let c := { a.ch1 with
        frequency := (a.ch1.frequency &&& 0xFF) ||| ((value &&& 0x07) <<< 8),
        lengthEnabled := value &&& 0x40 ≠ 0 }
    if value &&& 0x80 ≠ 0 then
      let c := { c with
          enabled := c.dacEnabled,
          lengthCounter := if c.lengthCounter = 0 then 64 else c.lengthCounter,
          timer := (2048 - c.frequency) * 4,
          envVolume := c.envInitial,
          envTimer := c.envPeriod,
          sweepShadow := c.frequency,
          sweepTimer := if c.sweepPeriod = 0 then 8 else c.sweepPeriod,
          sweepEnabled := 0 < c.sweepPeriod ∨ 0 < c.sweepShift }
      let a1 := { a with ch1 := c }
      if 0 < c.sweepShift then (APU.calculateSweep a1).1 else a1
    else { a with ch1 := c }
  else if addr = 0xFF16 then
    { a with ch2 := { a.ch2 with
        duty := (value >>> 6) &&& 0x03,
        lengthCounter := 64 - (value &&& 0x3F) } }
  else if addr = 0xFF17 then
    let dac := value &&& 0xF8 ≠ 0
    { a with ch2 := { a.ch2 with
        envInitial := (value >>> 4) &&& 0x0F,
        envDirection := value &&& 0x08 ≠ 0,
        envPeriod := value &&& 0x07,
        dacEnabled := dac,
        enabled := if dac then a.ch2.enabled else false } }
  else if addr = 0xFF18 then
    { a with ch2 := { a.ch2 with frequency := (a.ch2.frequency &&& 0x700) ||| value } }
  else if addr = 0xFF19 then
    let c := { a.ch2 with
        frequency := (a.ch2.frequency &&& 0xFF) ||| ((value &&& 0x07) <<< 8),
        lengthEnabled := value &&& 0x40 ≠ 0 }
    if value &&& 0x80 ≠ 0 then
      { a with ch2 := { c with
          enabled := c.dacEnabled,
          lengthCounter := if c.lengthCounter = 0 then 64 else c.lengthCounter,
          timer := (2048 - c.frequency) * 4,
          envVolume := c.envInitial,
          envTimer := c.envPeriod } }
    else { a with ch2 := c }
  else if addr = 0xFF1A then
    let dac := value &&& 0x80 ≠ 0
    { a with ch3 := { a.ch3 with
        dacEnabled := dac,
        enabled := if dac then a.ch3.enabled else false } }
  else if addr = 0xFF1B then
    { a with ch3 := { a.ch3 with lengthCounter := 256 - value } }
  else if addr = 0xFF1C then
    { a with ch3 := { a.ch3 with volumeCode := (value >>> 5) &&& 0x03 } }
  else if addr = 0xFF1D then
    { a with ch3 := { a.ch3 with frequency := (a.ch3.frequency &&& 0x700) ||| value } }
  else if addr = 0xFF1E then
    let c := { a.ch3 with
        frequency := (a.ch3.frequency &&& 0xFF) ||| ((value &&& 0x07) <<< 8),
        lengthEnabled := value &&& 0x40 ≠ 0 }
    if value &&& 0x80 ≠ 0 then
      { a with ch3 := { c with
          enabled := c.dacEnabled,
          lengthCounter := if c.lengthCounter = 0 then 256 else c.lengthCounter,
          timer := (2048 - c.frequency) * 2,
          wavePos := 0 } }
    else { a with ch3 := c }
  else if addr = 0xFF20 then
    { a with ch4 := { a.ch4 with lengthCounter := 64 - (value &&& 0x3F) } }
  else if addr = 0xFF21 then
    let dac := value &&& 0xF8 ≠ 0
    { a with ch4 := { a.ch4 with
        envInitial := (value >>> 4) &&& 0x0F,
        envDirection := value &&& 0x08 ≠ 0,
        envPeriod := value &&& 0x07,
        dacEnabled := dac,
        enabled := if dac then a.ch4.enabled else false } }
  else if addr = 0xFF22 then
    { a with ch4 := { a.ch4 with
        clockShift := (value >>> 4) &&& 0x0F,
        widthMode := value &&& 0x08 ≠ 0,
        divisorCode := value &&& 0x07 } }
  else if addr = 0xFF23 then
    let c := { a.ch4 with lengthEnabled := value &&& 0x40 ≠ 0 }
    if value &&& 0x80 ≠ 0 then
      let divisor := match c.divisorCode with
        | 0 => 8 | 1 => 16 | 2 => 32 | 3 => 48 | 4 => 64 | 5 => 80 | 6 => 96 | _ => 112
      { a with ch4 := { c with
          enabled := c.dacEnabled,
          lengthCounter := if c.lengthCounter = 0 then 64 else c.lengthCounter,
          timer := divisor <<< c.clockShift,
          envVolume := c.envInitial,
          envTimer := c.envPeriod,
          lfsr := 0x7FFF } }
    else { a with ch4 := c }
  else if addr = 0xFF24 then
    { a with masterVolLeft := (value >>> 4) &&& 0x07, masterVolRight := value &&& 0x07 }
  else if addr = 0xFF25 then
    { a with
        ch4Left := value &&& 0x80 ≠ 0, ch3Left := value &&& 0x40 ≠ 0,
        ch2Left := value &&& 0x20 ≠ 0, ch1Left := value &&& 0x10 ≠ 0,
        ch4Right := value &&& 0x08 ≠ 0, ch3Right := value &&& 0x04 ≠ 0,
        ch2Right := value &&& 0x02 ≠ 0, ch1Right := value &&& 0x01 ≠ 0 }
  else if addr = 0xFF26 then
    let wasEnabled := a.masterEnable
    let newEnable := value &&& 0x80 ≠ 0
    if wasEnabled ∧ ¬newEnable then
      { a with masterEnable := newEnable,
               ch1 := { a.ch1 with enabled := false },
               ch2 := { a.ch2 with enabled := false },
               ch3 := { a.ch3 with enabled := false },
               ch4 := { a.ch4 with enabled := false } }
    else { a with masterEnable := newEnable }
  else if 0xFF30 ≤ addr ∧ addr ≤ 0xFF3F then
    { a with waveRam := upd a.waveRam (addr - 0xFF30) (value &&& 0xFF) }
  else a

/-! ## MMU (bus and bank controllers), from the MMU class with
MBC1/MBC3/MBC5 support. -/

/-- The MBC3 real-time-clock register file. -/
structure RTC where
  seconds : Nat
  minutes : Nat
  hours : Nat
  daysLow : Nat
  daysHigh : Nat
  deriving Repr, DecidableEq

structure MMU where
  romLoaded : Bool
  rom : Nat → Nat
  romLen : Nat
  romBanks : Nat
  ramSize : Nat
  vram : Nat → Nat
  eram : Nat → Nat
  wram : Nat → Nat
  oam : Nat → Nat
  hram : Nat → Nat
  io : Nat → Nat
  ie : Nat
  mbcType : Nat
  romBank : Nat
  romBankHigh : Nat
  ramBank : Nat
  ramEnabled : Bool
  mbcMode : Nat
  hasRTC : Bool
  rtcEnabled : Bool
  rtcRegister : Nat
  rtcLatched : Bool
  rtcLatchPrepare : Bool
  rtc : RTC
  rtcLatchedData : RTC
  timer : Option Timer
  ppu : Option PPU
  input : Option Input
  apu : Option APU

/-- The boot-value writes of `initIO`, in source order. -/
def initIoPairs : List (Nat × Nat) :=
  [(0x00, 0xCF), (0x01, 0x00), (0x02, 0x7E), (0x04, 0xAB), (0x05, 0x00),
   (0x06, 0x00), (0x07, 0xF8), (0x0F, 0xE1), (0x10, 0x80), (0x11, 0xBF),
   (0x12, 0xF3), (0x13, 0xFF), (0x14, 0xBF), (0x16, 0x3F), (0x17, 0x00),
   (0x18, 0xFF), (0x19, 0xBF), (0x1A, 0x7F), (0x1B, 0xFF), (0x1C, 0x9F),
   (0x1D, 0xFF), (0x1E, 0xBF), (0x20, 0xFF), (0x21, 0x00), (0x22, 0x00),
   (0x23, 0xBF), (0x24, 0x77), (0x25, 0xF3), (0x26, 0xF1), (0x40, 0x91),
   (0x41, 0x85), (0x42, 0x00), (0x43, 0x00), (0x44, 0x00), (0x45, 0x00),
   (0x46, 0xFF), (0x47, 0xFC), (0x48, 0xFF), (0x49, 0xFF), (0x4A, 0x00),
   (0x4B, 0x00)]

/-- Translation of `initIO`: apply the boot-value writes to an IO array. -/
def initIo (f : Nat → Nat) : Nat → Nat :=
  initIoPairs.foldl (fun g p => upd g p.1 p.2) f

/-- Reset state of the MMU (`MMU.reset`): no ROM, zero-filled memories,
boot IO values, bank 1 selected. -/
def mmuReset : MMU :=
  { romLoaded := false, rom := fun _ => 0, romLen := 0, romBanks := 0,
    ramSize := 0, vram := fun _ => 0, eram := fun _ => 0, wram := fun _ => 0,
    oam := fun _ => 0, hram := fun _ => 0, io := initIo (fun _ => 0), ie := 0,
    mbcType := 0, romBank := 1, romBankHigh := 0, ramBank := 0,
    ramEnabled := false, mbcMode := 0, hasRTC := false, rtcEnabled := false,
    rtcRegister := 0, rtcLatched := false, rtcLatchPrepare := false,
    rtc := ⟨0, 0, 0, 0, 0⟩, rtcLatchedData := ⟨0, 0, 0, 0, 0⟩,
    timer := none, ppu := none, input := none, apu := none }

/-- The MMU as wired by the Emulator constructor: reset state with the
four devices attached. -/
def emuMMU : MMU :=
  { mmuReset with timer := some timerReset, ppu := some ppuReset,
                  input := some inputReset, apu := some apuInit }

/-- Translation of `loadROM`: detect the cartridge type, the bank count
(`2 << byte 0x148`) and the external-RAM size from the header. -/
def MMU.loadROM (m : MMU) (data : Nat → Nat) (len : Nat) : MMU :=
  let cartType := data 0x147
  let mbcType :=
    if 0x01 ≤ cartType ∧ cartType ≤ 0x03 then 1
    else if 0x0F ≤ cartType ∧ cartType ≤ 0x13 then 3
    else if 0x19 ≤ cartType ∧ cartType ≤ 0x1E then 5
    else 0
  let hasRTC :=
    if 0x0F ≤ cartType ∧ cartType ≤ 0x13 then cartType = 0x0F ∨ cartType = 0x10
    else m.hasRTC
  let ramSize := match data 0x149 with
    | 0 => 0 | 1 => 0 | 2 => 0x2000 | 3 => 0x8000 | 4 => 0x20000 | 5 => 0x10000
    | _ => 0
  { m with romLoaded := true, rom := data, romLen := len,
           mbcType := mbcType, hasRTC := hasRTC,
           romBanks := 2 <<< data 0x148, ramSize := ramSize }

/-- The `bank` local variable of `MMU.read` for the switchable window
0x4000-0x7FFF: MBC1 combines the RAM-bank bits, MBC5 the high bit, both
reduced modulo the bank count; MBC3 and plain ROM use `romBank` directly. -/
def MMU.effBank (m : MMU) : Nat :=
  if m.mbcType = 1 then ((m.ramBank <<< 5) ||| m.romBank) % m.romBanks
  else if m.mbcType = 5 then ((m.romBankHigh <<< 8) ||| m.romBank) % m.romBanks
  else m.romBank

/-- Translation of `readIO`: route IO reads to the owning device (when one
is attached), fall back to the raw IO byte. -/
def MMU.readIo (m : MMU) (addr : Nat) : Nat :=
  let reg := addr &&& 0x7F
  if addr = 0xFF00 then
    match m.input with | some i => i.read | none => 0xFF
  else if addr = 0xFF04 then
    match m.timer with | some t => t.div | none => m.io reg
  else if addr = 0xFF05 then
    match m.timer with | some t => t.tima | none => m.io reg
  else if addr = 0xFF06 then
    match m.timer with | some t => t.tma | none => m.io reg
  else if addr = 0xFF07 then
    match m.timer with | some t => t.tac ||| 0xF8 | none => m.io reg
  else if addr = 0xFF0F then m.io reg ||| 0xE0
  else if addr = 0xFF40 ∨ addr = 0xFF41 ∨ addr = 0xFF42 ∨ addr = 0xFF43 ∨
          addr = 0xFF44 ∨ addr = 0xFF45 ∨ addr = 0xFF47 ∨ addr = 0xFF48 ∨
          addr = 0xFF49 ∨ addr = 0xFF4A ∨ addr = 0xFF4B then
    match m.ppu with | some p => p.readRegister addr | none => m.io reg
  else if 0xFF10 ≤ addr ∧ addr ≤ 0xFF3F then
    match m.apu with | some a => a.readRegister addr | none => m.io reg
  else m.io reg

/-- Translation of `MMU.read`. Addresses are masked to 16 bits; reads
outside the ROM length, from disabled external RAM, or from the unusable
region yield 0xFF. -/
def MMU.read (m : MMU) (addr0 : Nat) : Nat :=
  let addr := addr0 &&& 0xFFFF
  if addr < 0x4000 then
    if ¬ m.romLoaded then 0xFF
    else if m.mbcType = 1 ∧ m.mbcMode = 1 then
      let bank := (m.ramBank <<< 5) % m.romBanks
      let romAddr := bank * 0x4000 + addr
      if romAddr < m.romLen then m.rom romAddr else 0xFF
    else if addr < m.romLen then m.rom addr else 0xFF
  else if addr < 0x8000 then
    if ¬ m.romLoaded then 0xFF
    else
      let romAddr := m.effBank * 0x4000 + (addr - 0x4000)
      if romAddr < m.romLen then m.rom romAddr else 0xFF
  else if addr < 0xA000 then m.vram (addr - 0x8000)
  else if addr < 0xC000 then
    if ¬ m.ramEnabled then 0xFF
    else if m.mbcType = 3 ∧ 0x08 ≤ m.ramBank ∧ m.ramBank ≤ 0x0C then
      let r := if m.rtcLatched then m.rtcLatchedData else m.rtc
      if m.ramBank = 0x08 then r.seconds
      else if m.ramBank = 0x09 then r.minutes
      else if m.ramBank = 0x0A then r.hours
      else if m.ramBank = 0x0B then r.daysLow
      else r.daysHigh
    else
      let ramAddr :=
        if m.mbcType = 1 then
          if m.mbcMode = 1 then m.ramBank * 0x2000 + (addr - 0xA000)
          else addr - 0xA000
        else m.ramBank * 0x2000 + (addr - 0xA000)
      if ramAddr < 0x20000 then m.eram ramAddr else 0xFF
  else if addr < 0xE000 then m.wram (addr - 0xC000)
  else if addr < 0xFE00 then m.wram (addr - 0xE000)
  else if addr < 0xFEA0 then m.oam (addr - 0xFE00)
  else if addr < 0xFF00 then 0xFF
  else if addr < 0xFF80 then m.readIo addr
  else if addr < 0xFFFF then m.hram (addr - 0xFF80)
  else m.ie

/-- Translation of `dmaTransfer`: copy 160 bytes from `value << 8` into OAM.
The source loop writes `oam[i] = read(source + i)` for i = 0..159; reads do
not mutate state and the only overlap of the source window with OAM is the
self-copy at the identical index, so the loop equals this one-shot update
computed from the pre-transfer state. -/
def MMU.dmaTransfer (m : MMU) (value : Nat) : MMU :=
  { m with oam := fun i => if i < 0xA0 then m.read ((value <<< 8) + i) else m.oam i }

/-- Store a byte into the IO array (the `this.io[reg] = value` statements
of `writeIO`). -/
def MMU.setIo (m : MMU) (reg value : Nat) : MMU :=
  { m with io := upd m.io reg value }

/-- Forward a write to the joypad when one is attached
(`if (this.input) this.input.write(value)`). -/
def MMU.fwdInput (m : MMU) (value : Nat) : MMU :=
  match m.input with
  | some i => { m with input := some (i.write value) }
  | none => m

/-- Apply an update to the timer when one is attached
(the `if (this.timer) this.timer.xxx = ...` statements). -/
def MMU.fwdTimer (m : MMU) (f : Timer → Timer) : MMU :=
  match m.timer with
  | some t => { m with timer := some (f t) }
  | none => m

/-- Forward a register write to the pixel unit when one is attached
(`if (this.ppu) this.ppu.writeRegister(addr, value)`). -/
def MMU.fwdPpu (m : MMU) (addr value : Nat) : MMU :=
  match m.ppu with
  | some p => { m with ppu := some (p.writeRegister addr value) }
  | none => m

/-- Forward a register write to the sound unit when one is attached
(`if (this.apu) this.apu.writeRegister(addr, value)`). -/
def MMU.fwdApu (m : MMU) (addr value : Nat) : MMU :=
  match m.apu with
  | some a => { m with apu := some (a.writeRegister addr value) }
  | none => m

/-- Translation of `writeIO`: forward to the owning device and store the
byte in the IO array (DIV stores 0, IF masks to five bits). -/
def MMU.writeIo (m : MMU) (addr value : Nat) : MMU :=
  let reg := addr &&& 0x7F
  if addr = 0xFF00 then (m.fwdInput value).setIo reg value
  else if addr = 0xFF04 then (m.fwdTimer (fun t => { t with div := 0 })).setIo reg 0
  else if addr = 0xFF05 then (m.fwdTimer (fun t => { t with tima := value })).setIo reg value
  else if addr = 0xFF06 then (m.fwdTimer (fun t => { t with tma := value })).setIo reg value
  else if addr = 0xFF07 then
    (m.fwdTimer (fun t => { t with tac := value &&& 0x07 })).setIo reg value
  else if addr = 0xFF0F then m.setIo reg (value &&& 0x1F)
  else if addr = 0xFF40 ∨ addr = 0xFF41 ∨ addr = 0xFF42 ∨ addr = 0xFF43 ∨
          addr = 0xFF45 ∨ addr = 0xFF46 then
    (((if addr = 0xFF46 then m.dmaTransfer value else m).fwdPpu addr value)).setIo reg value
  else if addr = 0xFF47 ∨ addr = 0xFF48 ∨ addr = 0xFF49 ∨ addr = 0xFF4A ∨
          addr = 0xFF4B then
    (m.fwdPpu addr value).setIo reg value
  else if 0xFF10 ≤ addr ∧ addr ≤ 0xFF3F then (m.fwdApu addr value).setIo reg value
  else m.setIo reg value

/-- Translation of `MMU.write`: bank-controller registers below 0x8000,
memories above, IE at the top; the value is masked to a byte and the
address to 16 bits on entry. -/
def MMU.write (m : MMU) (addr0 value0 : Nat) : MMU :=
  let addr := addr0 &&& 0xFFFF
  let value := value0 &&& 0xFF
  if addr < 0x2000 then { m with ramEnabled := (value &&& 0x0F) = 0x0A }
  else if addr < 0x4000 then
    if m.mbcType = 1 then
      let bank := value &&& 0x1F
      { m with romBank := if bank = 0 then 1 else bank }
    else if m.mbcType = 3 then
      let bank := value &&& 0x7F
      { m with romBank := if bank = 0 then 1 else bank }
    else if m.mbcType = 5 then
      if addr < 0x3000 then { m with romBank := value }
      else { m with romBankHigh := value &&& 0x01 }
    else m
  else if addr < 0x6000 then
    if m.mbcType = 1 then { m with ramBank := value &&& 0x03 }
    else if m.mbcType = 3 then
      if value ≤ 0x03 ∨ (0x08 ≤ value ∧ value ≤ 0x0C) then { m with ramBank := value }
      else m
    else if m.mbcType = 5 then { m with ramBank := value &&& 0x0F }
    else m
  else if addr < 0x8000 then
    if m.mbcType = 1 then { m with mbcMode := value &&& 0x01 }
    else if m.mbcType = 3 then
      let m1 :=
        if m.rtcLatchPrepare ∧ value = 0x01 then
          { m with rtcLatchedData := m.rtc, rtcLatched := true }
        else m
      { m1 with rtcLatchPrepare := value = 0x00 }
    else m
  else if addr < 0xA000 then { m with vram := upd m.vram (addr - 0x8000) value }
  else if addr < 0xC000 then
    if ¬ m.ramEnabled then m
    else if m.mbcType = 3 ∧ 0x08 ≤ m.ramBank ∧ m.ramBank ≤ 0x0C then
      if m.ramBank = 0x08 then { m with rtc := { m.rtc with seconds := value &&& 0x3F } }
      else if m.ramBank = 0x09 then { m with rtc := { m.rtc with minutes := value &&& 0x3F } }
      else if m.ramBank = 0x0A then { m with rtc := { m.rtc with hours := value &&& 0x1F } }
      else if m.ramBank = 0x0B then { m with rtc := { m.rtc with daysLow := value } }
      else { m with rtc := { m.rtc with daysHigh := value &&& 0xC1 } }
    else
      let ramAddr :=
        if m.mbcType = 1 then
          if m.mbcMode = 1 then m.ramBank * 0x2000 + (addr - 0xA000)
          else addr - 0xA000
        else m.ramBank * 0x2000 + (addr - 0xA000)
      if ramAddr < 0x20000 then { m with eram := upd m.eram ramAddr value } else m
  else if addr < 0xE000 then { m with wram := upd m.wram (addr - 0xC000) value }
  else if addr < 0xFE00 then { m with wram := upd m.wram (addr - 0xE000) value }
  else if addr < 0xFEA0 then { m with oam := upd m.oam (addr - 0xFE00) value }
  else if addr < 0xFF00 then m
  else if addr < 0xFF80 then m.writeIo addr value
  else if addr < 0xFFFF then { m with hram := upd m.hram (addr - 0xFF80) value }
  else { m with ie := value }

/-- A sequence of bus writes, applied in order. -/
def applyWrites (m : MMU) (ws : List (Nat × Nat)) : MMU :=
  ws.foldl (fun acc p => acc.write p.1 p.2) m

/-! ## CPU (Sharp LR35902), from the CPU class and the opcode tables.

Flags are stored as four booleans exactly as in the source; the F register
is assembled on read. Where the source relies on JavaScript two's-complement
behavior of `& 0xFF` / `& 0xFFFF` on a negative intermediate, the embedding
computes the intermediate in `Int` and reduces with `wrap8` / `wrap16`. -/

structure CPU where
  a : Nat
  b : Nat
  c : Nat
  d : Nat
  e : Nat
  h : Nat
  l : Nat
  flagZ : Bool
  flagN : Bool
  flagH : Bool
  flagC : Bool
  sp : Nat
  pc : Nat
  halted : Bool
  ime : Bool
  imeScheduled : Bool
  stopped : Bool
  cycles : Nat

/-- Reset state of the CPU (post-boot-ROM register values). -/
def cpuReset : CPU :=
  { a := 0x01, b := 0x00, c := 0x13, d := 0x00, e := 0xD8, h := 0x01, l := 0x4D,
    flagZ := true, flagN := false, flagH := true, flagC := true,
    sp := 0xFFFE, pc := 0x0100, halted := false, ime := false,
    imeScheduled := false, stopped := false, cycles := 0 }

/-- The F register assembled from the four flags (low nibble always 0). -/
def CPU.f (cp : CPU) : Nat :=
  (if cp.flagZ then 0x80 else 0) ||| (if cp.flagN then 0x40 else 0) |||
  (if cp.flagH then 0x20 else 0) ||| (if cp.flagC then 0x10 else 0)

/-- The F register setter: each flag from its bit. -/
def CPU.setF (cp : CPU) (v : Nat) : CPU :=
  { cp with flagZ := v &&& 0x80 ≠ 0, flagN := v &&& 0x40 ≠ 0,
            flagH := v &&& 0x20 ≠ 0, flagC := v &&& 0x10 ≠ 0 }

def CPU.af (cp : CPU) : Nat := (cp.a <<< 8) ||| cp.f

/-- AF setter: the low nibble of F is forced to zero. -/
def CPU.setAF (cp : CPU) (v : Nat) : CPU :=
  { cp.setF (v &&& 0xF0) with a := (v >>> 8) &&& 0xFF }

def CPU.bc (cp : CPU) : Nat := (cp.b <<< 8) ||| cp.c

def CPU.setBC (cp : CPU) (v : Nat) : CPU :=
  { cp with b := (v >>> 8) &&& 0xFF, c := v &&& 0xFF }

def CPU.de (cp : CPU) : Nat := (cp.d <<< 8) ||| cp.e

def CPU.setDE (cp : CPU) (v : Nat) : CPU :=
  { cp with d := (v >>> 8) &&& 0xFF, e := v &&& 0xFF }

def CPU.hl (cp : CPU) : Nat := (cp.h <<< 8) ||| cp.l

def CPU.setHL (cp : CPU) (v : Nat) : CPU :=
  { cp with h := (v >>> 8) &&& 0xFF, l := v &&& 0xFF }

/-- Translation of `add8`: flags and the byte result. -/
def CPU.add8 (cp : CPU) (x y : Nat) : CPU × Nat :=
  let result := x + y
  ({ cp with flagZ := result &&& 0xFF = 0, flagN := false,
             flagH := 0x0F < (x &&& 0x0F) + (y &&& 0x0F),
             flagC := 0xFF < result }, result &&& 0xFF)

/-- Translation of `adc8`. -/
def CPU.adc8 (cp : CPU) (x y : Nat) : CPU × Nat :=
  let carry := if cp.flagC then 1 else 0
  let result := x + y + carry
  ({ cp with flagZ := result &&& 0xFF = 0, flagN := false,
             flagH := 0x0F < (x &&& 0x0F) + (y &&& 0x0F) + carry,
             flagC := 0xFF < result }, result &&& 0xFF)

/-- Translation of `sub8` (the result is reduced two's-complement). -/
def CPU.sub8 (cp : CPU) (x y : Nat) : CPU × Nat :=
  let result := wrap8 ((x : Int) - (y : Int))
  ({ cp with flagZ := result = 0, flagN := true,
             flagH := (x &&& 0x0F) < (y &&& 0x0F),
             flagC := x < y }, result)

/-- Translation of `sbc8`. -/
def CPU.sbc8 (cp : CPU) (x y : Nat) : CPU × Nat :=
  let carry : Nat := if cp.flagC then 1 else 0
  let result := wrap8 ((x : Int) - (y : Int) - (carry : Int))
  ({ cp with flagZ := result = 0, flagN := true,
             flagH := (x &&& 0x0F) < (y &&& 0x0F) + carry,
             flagC := x < y + carry }, result)

/-- Translation of `and8`. -/
def CPU.and8 (cp : CPU) (x y : Nat) : CPU × Nat :=
  let result := x &&& y
  ({ cp with flagZ := result = 0, flagN := false, flagH := true, flagC := false },
   result)

/-- Translation of `or8`. -/
def CPU.or8 (cp : CPU) (x y : Nat) : CPU × Nat :=
  let result := x ||| y
  ({ cp with flagZ := result = 0, flagN := false, flagH := false, flagC := false },
   result)

/-- Translation of `xor8`. -/
def CPU.xor8 (cp : CPU) (x y : Nat) : CPU × Nat :=
  let result := x ^^^ y
  ({ cp with flagZ := result = 0, flagN := false, flagH := false, flagC := false },
   result)

/-- Translation of `cp8` (flags only). -/
def CPU.cp8 (cp : CPU) (x y : Nat) : CPU :=
  { cp with flagZ := x = y, flagN := true,
            flagH := (x &&& 0x0F) < (y &&& 0x0F), flagC := x < y }

/-- Translation of `inc8`: C is preserved. -/
def CPU.inc8 (cp : CPU) (value : Nat) : CPU × Nat :=
  let result := (value + 1) &&& 0xFF
  ({ cp with flagZ := result = 0, flagN := false,
             flagH := value &&& 0x0F = 0x0F }, result)

/-- Translation of `dec8`: C is preserved. -/
def CPU.dec8 (cp : CPU) (value : Nat) : CPU × Nat :=
  let result := wrap8 ((value : Int) - 1)
  ({ cp with flagZ := result = 0, flagN := true,
             flagH := value &&& 0x0F = 0x00 }, result)

/-- Translation of `add16`: Z is preserved. -/
def CPU.add16 (cp : CPU) (x y : Nat) : CPU × Nat :=
  let result := x + y
  ({ cp with flagN := false,
             flagH := 0x0FFF < (x &&& 0x0FFF) + (y &&& 0x0FFF),
             flagC := 0xFFFF < result }, result &&& 0xFFFF)

/-- Translation of `rlc`. -/
def CPU.rlc (cp : CPU) (value : Nat) : CPU × Nat :=
  let carry := (value >>> 7) &&& 1
  let result := ((value <<< 1) ||| carry) &&& 0xFF
  ({ cp with flagZ := result = 0, flagN := false, flagH := false,
             flagC := carry = 1 }, result)

/-- Translation of `rrc`. -/
def CPU.rrc (cp : CPU) (value : Nat) : CPU × Nat :=
  let carry := value &&& 1
  let result := ((value >>> 1) ||| (carry <<< 7)) &&& 0xFF
  ({ cp with flagZ := result = 0, flagN := false, flagH := false,
             flagC := carry = 1 }, result)

/-- Translation of `rl`. -/
def CPU.rl (cp : CPU) (value : Nat) : CPU × Nat :=
  let oldCarry := if cp.flagC then 1 else 0
  let newCarry := (value >>> 7) &&& 1
  let result := ((value <<< 1) ||| oldCarry) &&& 0xFF
  ({ cp with flagZ := result = 0, flagN := false, flagH := false,
             flagC := newCarry = 1 }, result)

/-- Translation of `rr`. -/
def CPU.rr (cp : CPU) (value : Nat) : CPU × Nat :=
  let oldCarry := if cp.flagC then 1 else 0
  let newCarry := value &&& 1
  let result := ((value >>> 1) ||| (oldCarry <<< 7)) &&& 0xFF
  ({ cp with flagZ := result = 0, flagN := false, flagH := false,
             flagC := newCarry = 1 }, result)

/-- Translation of `sla`. -/
def CPU.sla (cp : CPU) (value : Nat) : CPU × Nat :=
  let result := (value <<< 1) &&& 0xFF
  ({ cp with flagZ := result = 0, flagN := false, flagH := false,
             flagC := value &&& 0x80 ≠ 0 }, result)

/-- Translation of `sra` (bit 7 is kept). -/
def CPU.sra (cp : CPU) (value : Nat) : CPU × Nat :=
  let result := ((value >>> 1) ||| (value &&& 0x80)) &&& 0xFF
  ({ cp with flagZ := result = 0, flagN := false, flagH := false,
             flagC := value &&& 0x01 ≠ 0 }, result)

/-- Translation of `srl`. -/
def CPU.srl (cp : CPU) (value : Nat) : CPU × Nat :=
  let result := (value >>> 1) &&& 0xFF
  ({ cp with flagZ := result = 0, flagN := false, flagH := false,
             flagC := value &&& 0x01 ≠ 0 }, result)

/-- Translation of `swap`. -/
def CPU.swap (cp : CPU) (value : Nat) : CPU × Nat :=
  let result := ((value &&& 0x0F) <<< 4) ||| ((value &&& 0xF0) >>> 4)
  ({ cp with flagZ := result = 0, flagN := false, flagH := false,
             flagC := false }, result)

/-- Translation of `bit` (flags only; C preserved). -/
def CPU.bitOp (cp : CPU) (idx value : Nat) : CPU :=
  { cp with flagZ := (value >>> idx) &&& 1 = 0, flagN := false, flagH := true }

/-- Translation of `res`: clear a bit (JavaScript `value & ~(1 << bit)` on
32-bit integers; identical for byte values). -/
def CPU.resBit (_cp : CPU) (idx value : Nat) : Nat :=
  value &&& (0xFFFFFFFF ^^^ (1 <<< idx))

/-- Translation of `set`: set a bit. -/
def CPU.setBit (_cp : CPU) (idx value : Nat) : Nat :=
  value ||| (1 <<< idx)

/-- Translation of the DAA opcode body (0x27). -/
def CPU.daa (cp : CPU) : CPU :=
  if ¬cp.flagN then
    let adjC := cp.flagC ∨ 0x99 < cp.a
    let a1 := if adjC then cp.a + 0x60 else cp.a
    let fC := if adjC then true else cp.flagC
    let a2 := if cp.flagH ∨ 0x09 < (a1 &&& 0x0F) then a1 + 0x06 else a1
    let aF := a2 &&& 0xFF
    { cp with a := aF, flagZ := aF = 0, flagH := false, flagC := fC }
  else
    let a1 : Int := (cp.a : Int) - (if cp.flagC then (0x60 : Int) else 0)
    let a2 : Int := a1 - (if cp.flagH then (0x06 : Int) else 0)
    let aF := wrap8 a2
    { cp with a := aF, flagZ := aF = 0, flagH := false }

/-! ## The CPU-plus-bus machine: fetch, stack, opcode dispatch. -/

/-- A CPU attached to its bus, as wired by the Emulator constructor. -/
structure Machine where
  cpu : CPU
  mmu : MMU

def Machine.setCpu (m : Machine) (cp : CPU) : Machine := { m with cpu := cp }

def Machine.write (m : Machine) (addr v : Nat) : Machine :=
  { m with mmu := m.mmu.write addr v }

/-- Translation of `MMU.write16` (little endian). -/
def Machine.write16 (m : Machine) (addr v : Nat) : Machine :=
  (m.write addr (v &&& 0xFF)).write (addr + 1) ((v >>> 8) &&& 0xFF)

/-- Translation of `fetchByte`: read at PC, increment PC. -/
def Machine.fetchByte (m : Machine) : Machine × Nat :=
  (m.setCpu { m.cpu with pc := (m.cpu.pc + 1) &&& 0xFFFF }, m.mmu.read m.cpu.pc)

/-- Translation of `fetchWord` (little endian). -/
def Machine.fetchWord (m : Machine) : Machine × Nat :=
  let r1 := m.fetchByte
  let r2 := r1.1.fetchByte
  (r2.1, (r2.2 <<< 8) ||| r1.2)

/-- Translation of `push`: pre-decrement SP twice, high byte first. -/
def Machine.push (m : Machine) (value : Nat) : Machine :=
  let sp1 := wrap16 ((m.cpu.sp : Int) - 1)
  let m1 := (m.setCpu { m.cpu with sp := sp1 }).write sp1 ((value >>> 8) &&& 0xFF)
  let sp2 := wrap16 ((sp1 : Int) - 1)
  (m1.setCpu { m1.cpu with sp := sp2 }).write sp2 (value &&& 0xFF)

/-- Translation of `pop`: low byte first, post-increment SP twice. -/
def Machine.pop (m : Machine) : Machine × Nat :=
  let low := m.mmu.read m.cpu.sp
  let sp1 := (m.cpu.sp + 1) &&& 0xFFFF
  let high := m.mmu.read sp1
  (m.setCpu { m.cpu with sp := (sp1 + 1) &&& 0xFFFF }, (high <<< 8) ||| low)

/-- Translation of the opcode helper `getR8` (index 6 reads through (HL);
indices above 7 never occur, the catch-all mirrors case 7). -/
def getR8 (m : Machine) (r : Nat) : Nat :=
  match r with
  | 0 => m.cpu.b
  | 1 => m.cpu.c
  | 2 => m.cpu.d
  | 3 => m.cpu.e
  | 4 => m.cpu.h
  | 5 => m.cpu.l
  | 6 => m.mmu.read m.cpu.hl
  | _ => m.cpu.a

/-- Translation of the opcode helper `setR8` (index 6 writes through (HL)). -/
def setR8 (m : Machine) (r value : Nat) : Machine :=
  match r with
  | 0 => m.setCpu { m.cpu with b := value }
  | 1 => m.setCpu { m.cpu with c := value }
  | 2 => m.setCpu { m.cpu with d := value }
  | 3 => m.setCpu { m.cpu with e := value }
  | 4 => m.setCpu { m.cpu with h := value }
  | 5 => m.setCpu { m.cpu with l := value }
  | 6 => m.write m.cpu.hl value
  | _ => m.setCpu { m.cpu with a := value }

/-- The LD r, r' family (opcodes 0x40-0x7F except HALT), as generated in
the source table: 8 cycles when either side is (HL). -/
def ldrr (m : Machine) (dst src : Nat) : Machine × Nat :=
  (setR8 m dst (getR8 m src), if src = 6 ∨ dst = 6 then 8 else 4)

/-- The arithmetic families 0x80-0xBF, indexed by `(op - 0x80) >> 3`:
ADD, ADC, SUB, SBC, AND, XOR, OR, CP on `getR8 (op & 7)`. -/
def aluOp (m : Machine) (k r : Nat) : Machine × Nat :=
  let v := getR8 m r
  let cyc := if r = 6 then 8 else 4
  match k with
  | 0 => let rr := m.cpu.add8 m.cpu.a v; (m.setCpu { rr.1 with a := rr.2 }, cyc)
  | 1 => let rr := m.cpu.adc8 m.cpu.a v; (m.setCpu { rr.1 with a := rr.2 }, cyc)
  | 2 => let rr := m.cpu.sub8 m.cpu.a v; (m.setCpu { rr.1 with a := rr.2 }, cyc)
  | 3 => let rr := m.cpu.sbc8 m.cpu.a v; (m.setCpu { rr.1 with a := rr.2 }, cyc)
  | 4 => let rr := m.cpu.and8 m.cpu.a v; (m.setCpu { rr.1 with a := rr.2 }, cyc)
  | 5 => let rr := m.cpu.xor8 m.cpu.a v; (m.setCpu { rr.1 with a := rr.2 }, cyc)
  | 6 => let rr := m.cpu.or8 m.cpu.a v; (m.setCpu { rr.1 with a := rr.2 }, cyc)
  | _ => (m.setCpu (m.cpu.cp8 m.cpu.a v), cyc)

/-- The explicit opcode bodies 0x00-0x3F of the source table. -/
def execLow (m : Machine) (op : Nat) : Machine × Nat :=
  match op with
  | 0x00 => (m, 4)
  | 0x01 => let r := m.fetchWord; (r.1.setCpu (r.1.cpu.setBC r.2), 12)
  | 0x02 => (m.write m.cpu.bc m.cpu.a, 8)
  | 0x03 => (m.setCpu (m.cpu.setBC ((m.cpu.bc + 1) &&& 0xFFFF)), 8)
  | 0x04 => let r := m.cpu.inc8 m.cpu.b; (m.setCpu { r.1 with b := r.2 }, 4)
  | 0x05 => let r := m.cpu.dec8 m.cpu.b; (m.setCpu { r.1 with b := r.2 }, 4)
  | 0x06 => let r := m.fetchByte; (r.1.setCpu { r.1.cpu with b := r.2 }, 8)
  | 0x07 =>
    let carry := (m.cpu.a >>> 7) &&& 1
    (m.setCpu { m.cpu with a := ((m.cpu.a <<< 1) ||| carry) &&& 0xFF,
                           flagZ := false, flagN := false, flagH := false,
                           flagC := carry = 1 }, 4)
  | 0x08 => let r := m.fetchWord; (r.1.write16 r.2 r.1.cpu.sp, 20)
  | 0x09 => let r := m.cpu.add16 m.cpu.hl m.cpu.bc; (m.setCpu (r.1.setHL r.2), 8)
  | 0x0A => (m.setCpu { m.cpu with a := m.mmu.read m.cpu.bc }, 8)
  | 0x0B => (m.setCpu (m.cpu.setBC (wrap16 ((m.cpu.bc : Int) - 1))), 8)
  | 0x0C => let r := m.cpu.inc8 m.cpu.c; (m.setCpu { r.1 with c := r.2 }, 4)
  | 0x0D => let r := m.cpu.dec8 m.cpu.c; (m.setCpu { r.1 with c := r.2 }, 4)
  | 0x0E => let r := m.fetchByte; (r.1.setCpu { r.1.cpu with c := r.2 }, 8)
  | 0x0F =>
    let carry := m.cpu.a &&& 1
    (m.setCpu { m.cpu with a := ((m.cpu.a >>> 1) ||| (carry <<< 7)) &&& 0xFF,
                           flagZ := false, flagN := false, flagH := false,
                           flagC := carry = 1 }, 4)
  | 0x10 => let r := m.fetchByte; (r.1.setCpu { r.1.cpu with stopped := true }, 4)
  | 0x11 => let r := m.fetchWord; (r.1.setCpu (r.1.cpu.setDE r.2), 12)
  | 0x12 => (m.write m.cpu.de m.cpu.a, 8)
  | 0x13 => (m.setCpu (m.cpu.setDE ((m.cpu.de + 1) &&& 0xFFFF)), 8)
  | 0x14 => let r := m.cpu.inc8 m.cpu.d; (m.setCpu { r.1 with d := r.2 }, 4)
  | 0x15 => let r := m.cpu.dec8 m.cpu.d; (m.setCpu { r.1 with d := r.2 }, 4)
  | 0x16 => let r := m.fetchByte; (r.1.setCpu { r.1.cpu with d := r.2 }, 8)
  | 0x17 =>
    let oldCarry := if m.cpu.flagC then 1 else 0
    let newCarry := (m.cpu.a >>> 7) &&& 1
    (m.setCpu { m.cpu with a := ((m.cpu.a <<< 1) ||| oldCarry) &&& 0xFF,
                           flagZ := false, flagN := false, flagH := false,
                           flagC := newCarry = 1 }, 4)
  | 0x18 =>
    let r := m.fetchByte
    (r.1.setCpu { r.1.cpu with pc := wrap16 ((r.1.cpu.pc : Int) + signed8 r.2) }, 12)
  | 0x19 => let r := m.cpu.add16 m.cpu.hl m.cpu.de; (m.setCpu (r.1.setHL r.2), 8)
  | 0x1A => (m.setCpu { m.cpu with a := m.mmu.read m.cpu.de }, 8)
  | 0x1B => (m.setCpu (m.cpu.setDE (wrap16 ((m.cpu.de : Int) - 1))), 8)
  | 0x1C => let r := m.cpu.inc8 m.cpu.e; (m.setCpu { r.1 with e := r.2 }, 4)
  | 0x1D => let r := m.cpu.dec8 m.cpu.e; (m.setCpu { r.1 with e := r.2 }, 4)
  | 0x1E => let r := m.fetchByte; (r.1.setCpu { r.1.cpu with e := r.2 }, 8)
  | 0x1F =>
    let oldCarry := if m.cpu.flagC then 1 else 0
    let newCarry := m.cpu.a &&& 1
    (m.setCpu { m.cpu with a := ((m.cpu.a >>> 1) ||| (oldCarry <<< 7)) &&& 0xFF,
                           flagZ := false, flagN := false, flagH := false,
                           flagC := newCarry = 1 }, 4)
  | 0x20 =>
    let r := m.fetchByte
    if ¬r.1.cpu.flagZ then
      (r.1.setCpu { r.1.cpu with pc := wrap16 ((r.1.cpu.pc : Int) + signed8 r.2) }, 12)
    else (r.1, 8)
  | 0x21 => let r := m.fetchWord; (r.1.setCpu (r.1.cpu.setHL r.2), 12)
  | 0x22 =>
    let m1 := m.write m.cpu.hl m.cpu.a
    (m1.setCpu (m1.cpu.setHL ((m1.cpu.hl + 1) &&& 0xFFFF)), 8)
  | 0x23 => (m.setCpu (m.cpu.setHL ((m.cpu.hl + 1) &&& 0xFFFF)), 8)
  | 0x24 => let r := m.cpu.inc8 m.cpu.h; (m.setCpu { r.1 with h := r.2 }, 4)
  | 0x25 => let r := m.cpu.dec8 m.cpu.h; (m.setCpu { r.1 with h := r.2 }, 4)
  | 0x26 => let r := m.fetchByte; (r.1.setCpu { r.1.cpu with h := r.2 }, 8)
  | 0x27 => (m.setCpu m.cpu.daa, 4)
  | 0x28 =>
    let r := m.fetchByte
    if r.1.cpu.flagZ then
      (r.1.setCpu { r.1.cpu with pc := wrap16 ((r.1.cpu.pc : Int) + signed8 r.2) }, 12)
    else (r.1, 8)
  | 0x29 => let r := m.cpu.add16 m.cpu.hl m.cpu.hl; (m.setCpu (r.1.setHL r.2), 8)
  | 0x2A =>
    (m.setCpu ({ m.cpu with a := m.mmu.read m.cpu.hl }.setHL ((m.cpu.hl + 1) &&& 0xFFFF)), 8)
  | 0x2B => (m.setCpu (m.cpu.setHL (wrap16 ((m.cpu.hl : Int) - 1))), 8)
  | 0x2C => let r := m.cpu.inc8 m.cpu.l; (m.setCpu { r.1 with l := r.2 }, 4)
  | 0x2D => let r := m.cpu.dec8 m.cpu.l; (m.setCpu { r.1 with l := r.2 }, 4)
  | 0x2E => let r := m.fetchByte; (r.1.setCpu { r.1.cpu with l := r.2 }, 8)
  | 0x2F =>
    (m.setCpu { m.cpu with a := wrap8 (-(m.cpu.a : Int) - 1),
                           flagN := true, flagH := true }, 4)
  | 0x30 =>
    let r := m.fetchByte
    if ¬r.1.cpu.flagC then
      (r.1.setCpu { r.1.cpu with pc := wrap16 ((r.1.cpu.pc : Int) + signed8 r.2) }, 12)
    else (r.1, 8)
  | 0x31 => let r := m.fetchWord; (r.1.setCpu { r.1.cpu with sp := r.2 }, 12)
  | 0x32 =>
    let m1 := m.write m.cpu.hl m.cpu.a
    (m1.setCpu (m1.cpu.setHL (wrap16 ((m1.cpu.hl : Int) - 1))), 8)
  | 0x33 => (m.setCpu { m.cpu with sp := (m.cpu.sp + 1) &&& 0xFFFF }, 8)
  | 0x34 =>
    let r := m.cpu.inc8 (m.mmu.read m.cpu.hl)
    ((m.setCpu r.1).write m.cpu.hl r.2, 12)
  | 0x35 =>
    let r := m.cpu.dec8 (m.mmu.read m.cpu.hl)
    ((m.setCpu r.1).write m.cpu.hl r.2, 12)
  | 0x36 => let r := m.fetchByte; (r.1.write r.1.cpu.hl r.2, 12)
  | 0x37 =>
    (m.setCpu { m.cpu with flagN := false, flagH := false, flagC := true }, 4)
  | 0x38 =>
    let r := m.fetchByte
    if r.1.cpu.flagC then
      (r.1.setCpu { r.1.cpu with pc := wrap16 ((r.1.cpu.pc : Int) + signed8 r.2) }, 12)
    else (r.1, 8)
  | 0x39 => let r := m.cpu.add16 m.cpu.hl m.cpu.sp; (m.setCpu (r.1.setHL r.2), 8)
  | 0x3A =>
    (m.setCpu ({ m.cpu with a := m.mmu.read m.cpu.hl }.setHL (wrap16 ((m.cpu.hl : Int) - 1))), 8)
  | 0x3B => (m.setCpu { m.cpu with sp := wrap16 ((m.cpu.sp : Int) - 1) }, 8)
  | 0x3C => let r := m.cpu.inc8 m.cpu.a; (m.setCpu { r.1 with a := r.2 }, 4)
  | 0x3D => let r := m.cpu.dec8 m.cpu.a; (m.setCpu { r.1 with a := r.2 }, 4)
  | 0x3E => let r := m.fetchByte; (r.1.setCpu { r.1.cpu with a := r.2 }, 8)
  | 0x3F =>
    (m.setCpu { m.cpu with flagN := false, flagH := false, flagC := !m.cpu.flagC }, 4)
  | _ => (m, 4)

/-- The explicit opcode bodies 0xC0-0xFF of the source table (the
undefined opcodes 0xD3, 0xDB, 0xDD, 0xE3, 0xE4, 0xEB, 0xEC, 0xED, 0xF4,
0xFC, 0xFD all return 4 cycles and do nothing, as does the 0xCB stub). -/
def execHigh (m : Machine) (op : Nat) : Machine × Nat :=
  match op with
  | 0xC0 =>
    if ¬m.cpu.flagZ then
      let r := m.pop; (r.1.setCpu { r.1.cpu with pc := r.2 }, 20)
    else (m, 8)
  | 0xC1 => let r := m.pop; (r.1.setCpu (r.1.cpu.setBC r.2), 12)
  | 0xC2 =>
    let r := m.fetchWord
    if ¬r.1.cpu.flagZ then (r.1.setCpu { r.1.cpu with pc := r.2 }, 16) else (r.1, 12)
  | 0xC3 => let r := m.fetchWord; (r.1.setCpu { r.1.cpu with pc := r.2 }, 16)
  | 0xC4 =>
    let r := m.fetchWord
    if ¬r.1.cpu.flagZ then
      let m1 := r.1.push r.1.cpu.pc
      (m1.setCpu { m1.cpu with pc := r.2 }, 24)
    else (r.1, 12)
  | 0xC5 => (m.push m.cpu.bc, 16)
  | 0xC6 =>
    let r := m.fetchByte
    let rr := r.1.cpu.add8 r.1.cpu.a r.2
    (r.1.setCpu { rr.1 with a := rr.2 }, 8)
  | 0xC7 => let m1 := m.push m.cpu.pc; (m1.setCpu { m1.cpu with pc := 0x0000 }, 16)
  | 0xC8 =>
    if m.cpu.flagZ then
      let r := m.pop; (r.1.setCpu { r.1.cpu with pc := r.2 }, 20)
    else (m, 8)
  | 0xC9 => let r := m.pop; (r.1.setCpu { r.1.cpu with pc := r.2 }, 16)
  | 0xCA =>
    let r := m.fetchWord
    if r.1.cpu.flagZ then (r.1.setCpu { r.1.cpu with pc := r.2 }, 16) else (r.1, 12)
  | 0xCB => (m, 4)
  | 0xCC =>
    let r := m.fetchWord
    if r.1.cpu.flagZ then
      let m1 := r.1.push r.1.cpu.pc
      (m1.setCpu { m1.cpu with pc := r.2 }, 24)
    else (r.1, 12)
  | 0xCD =>
    let r := m.fetchWord
    let m1 := r.1.push r.1.cpu.pc
    (m1.setCpu { m1.cpu with pc := r.2 }, 24)
  | 0xCE =>
    let r := m.fetchByte
    let rr := r.1.cpu.adc8 r.1.cpu.a r.2
    (r.1.setCpu { rr.1 with a := rr.2 }, 8)
  | 0xCF => let m1 := m.push m.cpu.pc; (m1.setCpu { m1.cpu with pc := 0x0008 }, 16)
  | 0xD0 =>
    if ¬m.cpu.flagC then
      let r := m.pop; (r.1.setCpu { r.1.cpu with pc := r.2 }, 20)
    else (m, 8)
  | 0xD1 => let r := m.pop; (r.1.setCpu (r.1.cpu.setDE r.2), 12)
  | 0xD2 =>
    let r := m.fetchWord
    if ¬r.1.cpu.flagC then (r.1.setCpu { r.1.cpu with pc := r.2 }, 16) else (r.1, 12)
  | 0xD3 => (m, 4)
  | 0xD4 =>
    let r := m.fetchWord
    if ¬r.1.cpu.flagC then
      let m1 := r.1.push r.1.cpu.pc
      (m1.setCpu { m1.cpu with pc := r.2 }, 24)
    else (r.1, 12)
  | 0xD5 => (m.push m.cpu.de, 16)
  | 0xD6 =>
    let r := m.fetchByte
    let rr := r.1.cpu.sub8 r.1.cpu.a r.2
    (r.1.setCpu { rr.1 with a := rr.2 }, 8)
  | 0xD7 => let m1 := m.push m.cpu.pc; (m1.setCpu { m1.cpu with pc := 0x0010 }, 16)
  | 0xD8 =>
    if m.cpu.flagC then
      let r := m.pop; (r.1.setCpu { r.1.cpu with pc := r.2 }, 20)
    else (m, 8)
  | 0xD9 => let r := m.pop; (r.1.setCpu { r.1.cpu with pc := r.2, ime := true }, 16)
  | 0xDA =>
    let r := m.fetchWord
    if r.1.cpu.flagC then (r.1.setCpu { r.1.cpu with pc := r.2 }, 16) else (r.1, 12)
  | 0xDB => (m, 4)
  | 0xDC =>
    let r := m.fetchWord
    if r.1.cpu.flagC then
      let m1 := r.1.push r.1.cpu.pc
      (m1.setCpu { m1.cpu with pc := r.2 }, 24)
    else (r.1, 12)
  | 0xDD => (m, 4)
  | 0xDE =>
    let r := m.fetchByte
    let rr := r.1.cpu.sbc8 r.1.cpu.a r.2
    (r.1.setCpu { rr.1 with a := rr.2 }, 8)
  | 0xDF => let m1 := m.push m.cpu.pc; (m1.setCpu { m1.cpu with pc := 0x0018 }, 16)
  | 0xE0 => let r := m.fetchByte; (r.1.write (0xFF00 + r.2) r.1.cpu.a, 12)
  | 0xE1 => let r := m.pop; (r.1.setCpu (r.1.cpu.setHL r.2), 12)
  | 0xE2 => (m.write (0xFF00 + m.cpu.c) m.cpu.a, 8)
  | 0xE3 => (m, 4)
  | 0xE4 => (m, 4)
  | 0xE5 => (m.push m.cpu.hl, 16)
  | 0xE6 =>
    let r := m.fetchByte
    let rr := r.1.cpu.and8 r.1.cpu.a r.2
    (r.1.setCpu { rr.1 with a := rr.2 }, 8)
  | 0xE7 => let m1 := m.push m.cpu.pc; (m1.setCpu { m1.cpu with pc := 0x0020 }, 16)
  | 0xE8 =>
    let r := m.fetchByte
    (r.1.setCpu { r.1.cpu with
        sp := wrap16 ((r.1.cpu.sp : Int) + signed8 r.2),
        flagZ := false, flagN := false,
        flagH := 0x0F < (r.1.cpu.sp &&& 0x0F) + (r.2 &&& 0x0F),
        flagC := 0xFF < (r.1.cpu.sp &&& 0xFF) + (r.2 &&& 0xFF) }, 16)
  | 0xE9 => (m.setCpu { m.cpu with pc := m.cpu.hl }, 4)
  | 0xEA => let r := m.fetchWord; (r.1.write r.2 r.1.cpu.a, 16)
  | 0xEB => (m, 4)
  | 0xEC => (m, 4)
  | 0xED => (m, 4)
  | 0xEE =>
    let r := m.fetchByte
    let rr := r.1.cpu.xor8 r.1.cpu.a r.2
    (r.1.setCpu { rr.1 with a := rr.2 }, 8)
  | 0xEF => let m1 := m.push m.cpu.pc; (m1.setCpu { m1.cpu with pc := 0x0028 }, 16)
  | 0xF0 =>
    let r := m.fetchByte
    (r.1.setCpu { r.1.cpu with a := r.1.mmu.read (0xFF00 + r.2) }, 12)
  | 0xF1 => let r := m.pop; (r.1.setCpu (r.1.cpu.setAF (r.2 &&& 0xFFF0)), 12)
  | 0xF2 => (m.setCpu { m.cpu with a := m.mmu.read (0xFF00 + m.cpu.c) }, 8)
  | 0xF3 => (m.setCpu { m.cpu with ime := false }, 4)
  | 0xF4 => (m, 4)
  | 0xF5 => (m.push m.cpu.af, 16)
  | 0xF6 =>
    let r := m.fetchByte
    let rr := r.1.cpu.or8 r.1.cpu.a r.2
    (r.1.setCpu { rr.1 with a := rr.2 }, 8)
  | 0xF7 => let m1 := m.push m.cpu.pc; (m1.setCpu { m1.cpu with pc := 0x0030 }, 16)
  | 0xF8 =>
    let r := m.fetchByte
    (r.1.setCpu ({ r.1.cpu with
        flagZ := false, flagN := false,
        flagH := 0x0F < (r.1.cpu.sp &&& 0x0F) + (r.2 &&& 0x0F),
        flagC := 0xFF < (r.1.cpu.sp &&& 0xFF) + (r.2 &&& 0xFF)
      }.setHL (wrap16 ((r.1.cpu.sp : Int) + signed8 r.2))), 12)
  | 0xF9 => (m.setCpu { m.cpu with sp := m.cpu.hl }, 8)
  | 0xFA => let r := m.fetchWord; (r.1.setCpu { r.1.cpu with a := r.1.mmu.read r.2 }, 16)
  | 0xFB => (m.setCpu { m.cpu with imeScheduled := true }, 4)
  | 0xFC => (m, 4)
  | 0xFD => (m, 4)
  | 0xFE =>
    let r := m.fetchByte
    (r.1.setCpu (r.1.cpu.cp8 r.1.cpu.a r.2), 8)
  | 0xFF => let m1 := m.push m.cpu.pc; (m1.setCpu { m1.cpu with pc := 0x0038 }, 16)
  | _ => (m, 4)

/-- Translation of `CPU.execute`: the table is dense over 0x00-0xFF
(0x40-0xBF generated as the LD and arithmetic families), so only opcodes
outside 0x00-0xFF hit the unknown-opcode path (4 cycles, no effect). -/
def execute (m : Machine) (op : Nat) : Machine × Nat :=
  if op < 0x40 then execLow m op
  else if op = 0x76 then (m.setCpu { m.cpu with halted := true }, 4)
  else if op < 0x80 then ldrr m ((op >>> 3) &&& 7) (op &&& 7)
  else if op < 0xC0 then aluOp m ((op >>> 3) &&& 7) (op &&& 7)
  else if op < 0x100 then execHigh m op
  else (m, 4)

/-- The CB rotate/shift families 0x00-0x3F, indexed by `op >> 3`:
RLC, RRC, RL, RR, SLA, SRA, SWAP, SRL on `getR8 (op & 7)`. -/
def cbRot (m : Machine) (k r : Nat) : Machine × Nat :=
  let value := getR8 m r
  let rr := match k with
    | 0 => m.cpu.rlc value
    | 1 => m.cpu.rrc value
    | 2 => m.cpu.rl value
    | 3 => m.cpu.rr value
    | 4 => m.cpu.sla value
    | 5 => m.cpu.sra value
    | 6 => m.cpu.swap value
    | _ => m.cpu.srl value
  (setR8 (m.setCpu rr.1) r rr.2, if r = 6 then 16 else 8)

/-- Translation of `CPU.executeCB`: the CB table is dense over 0x00-0xFF
(rotates below 0x40, BIT, RES, SET above), so only opcodes outside that
range hit the unknown-opcode path (8 cycles, no effect). -/
def executeCB (m : Machine) (op : Nat) : Machine × Nat :=
  if op < 0x40 then cbRot m (op >>> 3) (op &&& 7)
  else if op < 0x80 then
    (m.setCpu (m.cpu.bitOp ((op >>> 3) &&& 7) (getR8 m (op &&& 7))),
     if op &&& 7 = 6 then 12 else 8)
  else if op < 0xC0 then
    (setR8 m (op &&& 7) (m.cpu.resBit ((op >>> 3) &&& 7) (getR8 m (op &&& 7))),
     if op &&& 7 = 6 then 16 else 8)
  else if op < 0x100 then
    (setR8 m (op &&& 7) (m.cpu.setBit ((op >>> 3) &&& 7) (getR8 m (op &&& 7))),
     if op &&& 7 = 6 then 16 else 8)
  else (m, 8)

/-- Dispatch to an interrupt vector: clear the IF bit (`&= ~mask` equals
`&&& (0xFF - mask)` on the byte values the IO array holds) and jump. -/
def Machine.dispatchInt (m : Machine) (mask pcv : Nat) : Machine :=
  { m with mmu := { m.mmu with io := upd m.mmu.io 0x0F (m.mmu.io 0x0F &&& mask) },
           cpu := { m.cpu with pc := pcv } }

/-- Translation of `handleInterrupts`: wake from halt on any pending
interrupt, and when IME is set push PC and jump to the highest-priority
vector for 20 cycles. -/
def Machine.handleInterrupts (m : Machine) : Machine × Nat :=
  let pending := m.mmu.ie &&& m.mmu.io 0x0F &&& 0x1F
  if pending = 0 then (m, 0)
  else
    let m1 := m.setCpu { m.cpu with halted := false }
    if ¬m1.cpu.ime then (m1, 0)
    else
      let m2 := m1.setCpu { m1.cpu with ime := false }
      let m3 := m2.push m2.cpu.pc
      if pending &&& 0x01 ≠ 0 then (m3.dispatchInt 0xFE 0x40, 20)
      else if pending &&& 0x02 ≠ 0 then (m3.dispatchInt 0xFD 0x48, 20)
      else if pending &&& 0x04 ≠ 0 then (m3.dispatchInt 0xFB 0x50, 20)
      else if pending &&& 0x08 ≠ 0 then (m3.dispatchInt 0xF7 0x58, 20)
      else if pending &&& 0x10 ≠ 0 then (m3.dispatchInt 0xEF 0x60, 20)
      else (m3, 20)

/-- The body of `CPU.step` after the scheduled-IME latch: service
interrupts, idle when halted, otherwise fetch and execute (CB-prefixed
opcodes fetch a second byte). -/
def Machine.stepCore (m : Machine) : Machine × Nat :=
  let hi := m.handleInterrupts
  if 0 < hi.2 then hi
  else if hi.1.cpu.halted then (hi.1, 4)
  else
    let f := hi.1.fetchByte
    let r :=
      if f.2 = 0xCB then
        let f2 := f.1.fetchByte
        executeCB f2.1 f2.2
      else execute f.1 f.2
    (r.1.setCpu { r.1.cpu with cycles := r.1.cpu.cycles + r.2 }, r.2)

/-- Translation of `CPU.step`: apply the scheduled-IME latch, then run
the step body. -/
def Machine.step (m0 : Machine) : Machine × Nat :=
  (if m0.cpu.imeScheduled
   then m0.setCpu { m0.cpu with ime := true, imeScheduled := false }
   else m0).stepCore

/-- The per-frame cycle budget of the Emulator (`cyclesPerFrame`). -/
def cyclesPerFrame : Nat := 70224

/-- Translation of the Emulator frame loop `while (cycles < 70224)`,
with an explicit iteration bound (`fuel`) and the timer/PPU/APU updates
abstracted as a state transformer applied to the stepped machine. When
the budget is reached within the fuel the result is the final cycle
accumulator, exactly as in the source loop. -/
def frameLoop (devs : Nat → Machine → Machine) :
    Nat → Machine → Nat → Nat
  | 0, _, cycles => cycles
  | fuel + 1, m, cycles =>
    if cycles < cyclesPerFrame then
      let r := m.step
      frameLoop devs fuel (devs r.2 r.1) (cycles + r.2)
    else cycles

/-! ## A concrete program for the EI latch: EI at 0x0100, NOP at 0x0101. -/

/-- A ROM image that is 0x00 (NOP) everywhere except an EI (0xFB) at the
entry point 0x0100. All header bytes are 0: no MBC, 2 banks, no RAM. -/
def c1Rom : Nat → Nat := fun a => if a = 0x0100 then 0xFB else 0x00

/-- The machine at the entry point with this ROM loaded and IE = 0x01
(V-Blank enabled). The boot IO values leave IF = 0xE1, so bit 0 of
IE & IF is already pending when the EI at 0x0100 executes. -/
def c1Machine : Machine :=
  ⟨cpuReset, (emuMMU.loadROM c1Rom 0x8000).write 0xFFFF 0x01⟩

/-! ## Scenario states and invariant predicates used by the claim proofs. -/

/-- The APU state reached from the reset state by the writes
NR10 = 0x17, NR13 = 0x00, NR14 = 0x87 of scenario §8.6. -/
def sweepScenario : APU :=
  APU.writeRegister
    (APU.writeRegister (APU.writeRegister (APU.reset apuInit) 0xFF10 0x17) 0xFF13 0x00)
    0xFF14 0x87

/-- A minimal MBC1 cartridge header: type byte 0x01 (MBC1), ROM size byte 0
(2 banks, 32 KiB), RAM size byte 0. -/
def mbc1SmallRom : Nat → Nat := fun a => if a = 0x147 then 0x01 else 0

/-- Invariant carried through every bus write: under MBC1 or MBC3 the
ROM-bank register is never zero. -/
def MMU.bankInv (m : MMU) : Prop :=
  (m.mbcType = 1 ∨ m.mbcType = 3) → m.romBank ≠ 0

/-- Every cell of a modelled memory is a byte. -/
def bytes (f : Nat → Nat) : Prop := ∀ i, f i ≤ 0xFF

structure TimerInv (t : Timer) : Prop where
  div : t.div ≤ 0xFF
  tima : t.tima ≤ 0xFF
  tma : t.tma ≤ 0xFF
  tac : t.tac ≤ 0x07

structure PPUInv (p : PPU) : Prop where
  lcdc : p.lcdc ≤ 0xFF
  stat : p.stat ≤ 0xFF
  scy : p.scy ≤ 0xFF
  scx : p.scx ≤ 0xFF
  ly : p.ly ≤ 0xFF
  lyc : p.lyc ≤ 0xFF
  wy : p.wy ≤ 0xFF
  wx : p.wx ≤ 0xFF
  bgp : p.bgp ≤ 0xFF
  obp0 : p.obp0 ≤ 0xFF
  obp1 : p.obp1 ≤ 0xFF
  mode : p.mode ≤ 3

structure InputInv (i : Input) : Prop where
  p1 : i.p1 ≤ 0xFF
  buttons : i.buttons ≤ 0x0F
  directions : i.directions ≤ 0x0F

structure APUInv (a : APU) : Prop where
  volL : a.masterVolLeft ≤ 7
  volR : a.masterVolRight ≤ 7
  c1sp : a.ch1.sweepPeriod ≤ 7
  c1ss : a.ch1.sweepShift ≤ 7
  c1d : a.ch1.duty ≤ 3
  c1ei : a.ch1.envInitial ≤ 15
  c1ep : a.ch1.envPeriod ≤ 7
  c2d : a.ch2.duty ≤ 3
  c2ei : a.ch2.envInitial ≤ 15
  c2ep : a.ch2.envPeriod ≤ 7
  c3v : a.ch3.volumeCode ≤ 3
  c4ei : a.ch4.envInitial ≤ 15
  c4ep : a.ch4.envPeriod ≤ 7
  c4cs : a.ch4.clockShift ≤ 15
  c4dc : a.ch4.divisorCode ≤ 7
  wave : bytes a.waveRam

structure RTCInv (r : RTC) : Prop where
  seconds : r.seconds ≤ 0xFF
  minutes : r.minutes ≤ 0xFF
  hours : r.hours ≤ 0xFF
  daysLow : r.daysLow ≤ 0xFF
  daysHigh : r.daysHigh ≤ 0xFF

structure MMUInv (m : MMU) : Prop where
  rom : bytes m.rom
  vram : bytes m.vram
  eram : bytes m.eram
  wram : bytes m.wram
  oam : bytes m.oam
  hram : bytes m.hram
  io : bytes m.io
  ie : m.ie ≤ 0xFF
  rtc : RTCInv m.rtc
  rtcL : RTCInv m.rtcLatchedData
  timer : ∀ t, m.timer = some t → TimerInv t
  ppu : ∀ p, m.ppu = some p → PPUInv p
  input : ∀ i, m.input = some i → InputInv i
  apu : ∀ a, m.apu = some a → APUInv a

/-! ## General lemmas about `upd` and the timer loops. -/

@[simp] theorem upd_same (f : Nat → Nat) (i v : Nat) : upd f i v i = v := by
  simp [upd]

@[simp] theorem upd_ne (f : Nat → Nat) (i v j : Nat) (h : j ≠ i) :
    upd f i v j = f j := by
  simp [upd, h]

theorem freqThreshold_pos (tac : Nat) : 0 < freqThreshold tac := by
  unfold freqThreshold
  rcases h : tac &&& 0x03 with _ | _ | _ | n <;> simp

/-- Setting bit 2 by an OR is visible under the bit-2 mask. -/
theorem and_four_or_four (a : Nat) : (a ||| 0x04) &&& 0x04 = 0x04 := by
  apply Nat.eq_of_testBit_eq
  intro i
  simp only [Nat.testBit_and, Nat.testBit_or]
  cases h1 : Nat.testBit a i <;> cases h2 : Nat.testBit 4 i <;> simp

/-- An overflowing tick keeps bit 2 of the IF byte set; a non-overflowing
tick leaves the IF byte unchanged. -/
theorem timaTick_bit2 (tima tma iflag : Nat) (h : iflag &&& 0x04 = 0x04) :
    (timaTick tima tma iflag).2 &&& 0x04 = 0x04 := by
  simp only [timaTick]
  split
  · exact and_four_or_four iflag
  · exact h

/-- Bit 2 of the IF byte, once set, survives the rest of the TIMA loop
(every later iteration either leaves IF alone or ORs bit 2 in again). -/
theorem timaLoop_preserves_bit2 :
    ∀ tc threshold tima tma iflag, iflag &&& 0x04 = 0x04 →
      (timaLoop threshold tc tima tma iflag).2.2 &&& 0x04 = 0x04 := by
  intro tc
  induction tc using Nat.strong_induction_on with
  | _ tc ih =>
    intro threshold tima tma iflag h
    rw [timaLoop]
    split
    · next hcond =>
      exact ih _ (by omega) _ _ _ _ (timaTick_bit2 _ _ _ h)
    · exact h

/-- Unfolding of the TIMA loop for one guaranteed iteration. -/
theorem timaLoop_unfold_once (threshold tc tima tma iflag : Nat)
    (hpos : 0 < threshold) (hle : threshold ≤ tc) :
    timaLoop threshold tc tima tma iflag =
      timaLoop threshold (tc - threshold) (timaTick tima tma iflag).1 tma
        (timaTick tima tma iflag).2 := by
  rw [timaLoop]
  simp [hpos, hle]

/-! ## Claims about the joypad register (C3) -/

/-- C3 fails on the code: with both selection lines clear, buttons = 0x0E
(A pressed) and directions = 0x0F, the low nibble of a P1 read is 0x0F (the
direction nibble alone), not the bitwise AND 0x0E of the two nibbles: the
direction branch of `Input.read` runs last and overwrites the button nibble.
The state is reached from reset by pressing A and writing 0x00 to P1. -/
theorem joypad_both_clear_not_and :
    (Input.write ⟨0x0E, 0x0F, 0xFF⟩ 0x00).p1 &&& 0x30 = 0 ∧
    (Input.write ⟨0x0E, 0x0F, 0xFF⟩ 0x00).read &&& 0x0F ≠
      ((Input.write ⟨0x0E, 0x0F, 0xFF⟩ 0x00).directions &&&
       (Input.write ⟨0x0E, 0x0F, 0xFF⟩ 0x00).buttons) &&& 0x0F := by
  decide

/-- Whatever the high nibble contributions are, the low nibble of the value
assembled by the direction branch of `Input.read` is exactly the (4-bit)
nibble that was ORed in last. -/
theorem low_nibble_after_or (x d : Nat) (hd : d < 16) :
    (((x &&& 0xF0) ||| d) ||| 0xC0) &&& 0x0F = d := by
  apply Nat.eq_of_testBit_eq
  intro i
  simp only [Nat.testBit_and, Nat.testBit_or]
  by_cases hi : i < 4
  · interval_cases i <;>
      simp [Nat.testBit_and, Nat.testBit_or, Nat.testBit_succ]
  · have hle : (16 : Nat) ≤ 2 ^ i := by
      calc (16 : Nat) = 2 ^ 4 := by norm_num
        _ ≤ 2 ^ i := Nat.pow_le_pow_right (by norm_num) (by omega)
    have h1 : Nat.testBit 0x0F i = false :=
      Nat.testBit_eq_false_of_lt (lt_of_lt_of_le (by norm_num) hle)
    have h2 : Nat.testBit d i = false :=
      Nat.testBit_eq_false_of_lt (lt_of_lt_of_le hd hle)
    simp [h1, h2]

/-- C3 amended: reading 0xFF00 with both selection lines clear (bits 4 and 5
of P1 both 0) yields a low nibble equal to the direction nibble: the button
branch is applied first and then overwritten by the direction branch. -/
theorem joypad_both_clear_reads_directions (s : Input)
    (hd : s.directions < 16) (h30 : s.p1 &&& 0x30 = 0) :
    s.read &&& 0x0F = s.directions := by
  have h20 : s.p1 &&& 0x20 = 0 := by
    have h := congrArg (· &&& 0x20) h30
    simpa [Nat.and_assoc] using h
  have h10 : s.p1 &&& 0x10 = 0 := by
    have h := congrArg (· &&& 0x10) h30
    simpa [Nat.and_assoc] using h
  simp only [Input.read, h20, h10, if_pos]
  exact low_nibble_after_or _ _ hd

/-- Witness for the amended C3 at a concrete reachable joypad state. -/
theorem joypad_both_clear_reads_directions_witness :
    Input.read ⟨0x0F, 0x05, 0xCF⟩ &&& 0x0F = 0x05 :=
  joypad_both_clear_reads_directions ⟨0x0F, 0x05, 0xCF⟩ (by decide) (by decide)

/-! ## Claims about LCDC display enable/disable (C4) -/

/-- C4 fails on the code: after disabling the display (write 0x00 to LCDC,
which does reset mode and line to 0) and re-enabling it (write 0x91), the
pixel unit is still in mode 0, not mode 2, and even after stepping the
80 cycles that make up a full mode-2 period it remains in mode 0 (a mode-0
period is 204 cycles): enabling restarts from mode 0, line 0. -/
theorem lcdc_enable_not_mode2 :
    (PPU.writeRegister ppuReset 0xFF40 0x00).mode = 0 ∧
    (PPU.writeRegister ppuReset 0xFF40 0x00).ly = 0 ∧
    (PPU.writeRegister (PPU.writeRegister ppuReset 0xFF40 0x00) 0xFF40 0x91).mode ≠ 2 ∧
    (PPU.step (PPU.writeRegister (PPU.writeRegister ppuReset 0xFF40 0x00) 0xFF40 0x91)
        80 0).1.mode = 0 := by
  decide

/-- C4 amended: a write to LCDC clearing bit 7 while the display was enabled
resets the mode to 0, the line counter to 0 and the mode cycle counter to 0;
a write with bit 7 set only stores the LCDC value, so the unit resumes from
mode 0, line 0 rather than restarting from mode 2. -/
theorem lcdc_write_disable_enable (p : PPU) (value : Nat) :
    (p.lcdc &&& 0x80 ≠ 0 → value &&& 0x80 = 0 →
      PPU.writeRegister p 0xFF40 value =
        { p with lcdc := value, ly := 0, mode := 0, modeCycles := 0 }) ∧
    (value &&& 0x80 ≠ 0 →
      PPU.writeRegister p 0xFF40 value = { p with lcdc := value }) := by
  constructor
  · intro hwas hval
    simp [PPU.writeRegister, hwas, hval]
  · intro hval
    simp [PPU.writeRegister, hval]

/-- Witness for the amended C4 on the reset pixel unit. -/
theorem lcdc_write_disable_enable_witness :
    PPU.writeRegister ppuReset 0xFF40 0x00 =
      { ppuReset with lcdc := 0, ly := 0, mode := 0, modeCycles := 0 } ∧
    PPU.writeRegister ppuReset 0xFF40 0x91 = { ppuReset with lcdc := 0x91 } :=
  ⟨(lcdc_write_disable_enable ppuReset 0x00).1 (by decide) (by decide),
   (lcdc_write_disable_enable ppuReset 0x91).2 (by decide)⟩

/-! ## Claims about the channel-1 sweep trigger scenario (C5) -/

/-- C5 fails on the code (and on the arithmetic of the scenario itself): the
initial-trigger sweep check computes 1792 + (1792 >>> 7) = 1806, which does
not exceed 2047, so the sweep overflow path never disables the channel. -/
theorem sweep_trigger_no_overflow :
    sweepScenario.ch1.sweepShadow = 0x700 ∧
    calcSweepFreq sweepScenario.ch1 = 1806 ∧
    ¬ (2047 < calcSweepFreq sweepScenario.ch1) := by
  decide

/-- C5 amended: the write sequence does leave channel 1 disabled, but because
its DAC is off (NR12 still holds its reset value, so the trigger assigns
`enabled := dacEnabled = false`); the sweep check computes 1806 ≤ 2047 and is
not the cause. -/
theorem sweep_trigger_dac_off :
    sweepScenario.ch1.enabled = false ∧
    sweepScenario.ch1.dacEnabled = false ∧
    calcSweepFreq sweepScenario.ch1 = 1806 := by
  decide

/-! ## Claims about the audio ring buffer (C6) -/

/-- C6 fails on the code: with write index 1 and read index 2 the buffer is
full in the sense of the claim ((1+1) mod N = 2 = read), yet the producer
still writes: it advances the write index to 3 and stores the right sample
into cell 2 — the very cell the consumer would read next — overwriting an
unread sample. -/
theorem ring_producer_ignores_full :
    (1 + 1) % bufLen = 2 ∧
    (ringWrite (fun _ => 0) 1 5 7).2 = 3 ∧
    (ringWrite (fun _ => 0) 1 5 7).1 2 = 7 := by
  decide

/-- C6 amended: the producer writes unconditionally (there is no fullness
test in the source), always advancing the write index by two modulo the
buffer length; only the consumer half of the claim holds: it reads exactly
when the indices differ, emitting silence and staying put otherwise. -/
theorem ring_ops_spec (buf : Nat → Nat) (w r l rr : Nat) :
    (ringWrite buf w l rr).2 = (w + 2) % bufLen ∧
    (r = w → ringRead buf r w = (0, 0, r)) ∧
    (r ≠ w → ringRead buf r w =
      (buf r, buf ((r + 1) % bufLen), (r + 2) % bufLen)) := by
  refine ⟨rfl, ?_, ?_⟩ <;> intro h <;> simp [ringRead, h]

/-- Witness for the amended C6, discharging both index hypotheses at
concrete indices. -/
theorem ring_ops_spec_witness :
    (ringWrite (fun _ => 0) 4 1 2).2 = (4 + 2) % bufLen ∧
    ringRead (fun _ => 0) 3 3 = (0, 0, 3) ∧
    ringRead (fun _ => 0) 5 3 = (0, 0, (5 + 2) % bufLen) := by
  refine ⟨(ring_ops_spec (fun _ => 0) 4 3 1 2).1,
         (ring_ops_spec (fun _ => 0) 3 3 0 0).2.1 rfl, ?_⟩
  have h := (ring_ops_spec (fun _ => 0) 3 5 0 0).2.2 (by decide)
  simpa using h

/-! ## Claims about the timer overflow (C7) -/

/-- C7 holds: when TAC bit 2 is set, every TIMA increment that passes 0xFF
reloads TIMA with TMA and raises IF bit 2 (first conjunct: every overflowing
tick), and after any `Timer.step` that performs at least one tick starting
from TIMA = 0xFF, bit 2 of the returned IF byte is observably set (the bit
survives all later loop iterations). -/
theorem timer_overflow_reloads_tma (t : Timer) (c iflag : Nat)
    (henable : ¬ (t.tac &&& 0x04 = 0))
    (hov : t.tima = 0xFF)
    (hc : freqThreshold t.tac ≤ t.timaCycles + c) :
    (∀ v ifl, 0xFF < v + 1 → timaTick v t.tma ifl = (t.tma, ifl ||| 0x04)) ∧
    (Timer.step t c iflag).2 &&& 0x04 = 0x04 := by
  constructor
  · intro v ifl hv
    simp [timaTick, hv]
  · show (Timer.step t c iflag).2 &&& 0x04 = 0x04
    unfold Timer.step
    simp only [henable, if_false]
    rw [timaLoop_unfold_once _ _ _ _ _ (freqThreshold_pos t.tac) hc]
    apply timaLoop_preserves_bit2
    rw [hov]
    simpa [timaTick] using and_four_or_four iflag

/-- Witness for C7: TMA = 0xFE, TAC = 0x05 (enabled, period 16), TIMA = 0xFF,
one step of 16 cycles. -/
theorem timer_overflow_reloads_tma_witness :
    (∀ v ifl, 0xFF < v + 1 → timaTick v 0xFE ifl = (0xFE, ifl ||| 0x04)) ∧
    (Timer.step ⟨0, 0xFF, 0xFE, 0x05, 0, 0⟩ 16 0).2 &&& 0x04 = 0x04 :=
  timer_overflow_reloads_tma ⟨0, 0xFF, 0xFE, 0x05, 0, 0⟩ 16 0
    (by decide) rfl (by decide)

/-! ## Helper lemmas on bit masks -/

theorem and_FFFF_of_lt (n : Nat) (h : n < 65536) : n &&& 0xFFFF = n := by
  have h16 : (0xFFFF : Nat) = 2 ^ 16 - 1 := by norm_num
  rw [h16, Nat.and_pow_two_sub_one_eq_mod]
  exact Nat.mod_eq_of_lt h

theorem and_FF_of_le (v : Nat) (h : v ≤ 0xFF) : v &&& 0xFF = v := by
  have h8 : (0xFF : Nat) = 2 ^ 8 - 1 := by norm_num
  rw [h8, Nat.and_pow_two_sub_one_eq_mod]
  exact Nat.mod_eq_of_lt (by omega)

theorem or_eq_zero_right (x y : Nat) (h : x ||| y = 0) : y = 0 := by
  apply Nat.eq_of_testBit_eq
  intro i
  have hb := congrArg (fun z => Nat.testBit z i) h
  simp only [Nat.testBit_or] at hb
  simp only [Nat.zero_testBit] at hb ⊢
  cases hy : Nat.testBit y i <;> simp [hy] at hb ⊢

/-! ## Claims about the MBC effective ROM bank (C2) -/

/-- C2 fails on the code for MBC1: after loading a 2-bank MBC1 cartridge and
writing 0x02 to the ROM-bank select register, the effective switchable bank
is ((0 << 5) | 2) mod 2 = 0 — the zero-to-one translation happens before the
modulo reduction, which can produce bank 0 again. -/
theorem mbc1_effective_bank_zero :
    ((mmuReset.loadROM mbc1SmallRom 0x8000).write 0x2000 0x02).mbcType = 1 ∧
    ((mmuReset.loadROM mbc1SmallRom 0x8000).write 0x2000 0x02).romBank = 2 ∧
    ((mmuReset.loadROM mbc1SmallRom 0x8000).write 0x2000 0x02).effBank = 0 := by
  decide

theorem setIo_mbcType (m : MMU) (r v : Nat) : (m.setIo r v).mbcType = m.mbcType := rfl

theorem setIo_romBank (m : MMU) (r v : Nat) : (m.setIo r v).romBank = m.romBank := rfl

theorem fwdInput_mbcType (m : MMU) (v : Nat) : (m.fwdInput v).mbcType = m.mbcType := by
  unfold MMU.fwdInput; cases m.input <;> rfl

theorem fwdInput_romBank (m : MMU) (v : Nat) : (m.fwdInput v).romBank = m.romBank := by
  unfold MMU.fwdInput; cases m.input <;> rfl

theorem fwdTimer_mbcType (m : MMU) (f : Timer → Timer) :
    (m.fwdTimer f).mbcType = m.mbcType := by
  unfold MMU.fwdTimer; cases m.timer <;> rfl

theorem fwdTimer_romBank (m : MMU) (f : Timer → Timer) :
    (m.fwdTimer f).romBank = m.romBank := by
  unfold MMU.fwdTimer; cases m.timer <;> rfl

theorem fwdPpu_mbcType (m : MMU) (a v : Nat) : (m.fwdPpu a v).mbcType = m.mbcType := by
  unfold MMU.fwdPpu; cases m.ppu <;> rfl

theorem fwdPpu_romBank (m : MMU) (a v : Nat) : (m.fwdPpu a v).romBank = m.romBank := by
  unfold MMU.fwdPpu; cases m.ppu <;> rfl

theorem fwdApu_mbcType (m : MMU) (a v : Nat) : (m.fwdApu a v).mbcType = m.mbcType := by
  unfold MMU.fwdApu; cases m.apu <;> rfl

theorem fwdApu_romBank (m : MMU) (a v : Nat) : (m.fwdApu a v).romBank = m.romBank := by
  unfold MMU.fwdApu; cases m.apu <;> rfl

theorem dmaTransfer_mbcType (m : MMU) (v : Nat) :
    (m.dmaTransfer v).mbcType = m.mbcType := rfl

theorem dmaTransfer_romBank (m : MMU) (v : Nat) :
    (m.dmaTransfer v).romBank = m.romBank := rfl

theorem writeIo_preserves_bank (m : MMU) (addr value : Nat) :
    (m.writeIo addr value).mbcType = m.mbcType ∧
    (m.writeIo addr value).romBank = m.romBank := by
  simp only [MMU.writeIo]
  split_ifs <;>
    exact ⟨by simp [setIo_mbcType, fwdInput_mbcType, fwdTimer_mbcType, fwdPpu_mbcType,
                    fwdApu_mbcType, dmaTransfer_mbcType],
           by simp [setIo_romBank, fwdInput_romBank, fwdTimer_romBank, fwdPpu_romBank,
                    fwdApu_romBank, dmaTransfer_romBank]⟩

theorem bankInv_write (m : MMU) (a v : Nat) (h : m.bankInv) :
    (m.write a v).bankInv := by
  unfold MMU.bankInv at *
  simp only [MMU.write]
  by_cases h1 : a &&& 0xFFFF < 0x2000
  · rw [if_pos h1]; exact h
  rw [if_neg h1]
  by_cases h2 : a &&& 0xFFFF < 0x4000
  · rw [if_pos h2]
    split_ifs <;> intro hmbc <;>
      first
      | exact one_ne_zero
      | assumption
      | exact h (show m.mbcType = 1 ∨ m.mbcType = 3 from hmbc)
      | exact absurd (show m.mbcType = 1 ∨ m.mbcType = 3 from hmbc) (by tauto)
  rw [if_neg h2]
  by_cases h3 : a &&& 0xFFFF < 0x6000
  · rw [if_pos h3]
    split_ifs <;> intro hmbc <;>
      exact h (show m.mbcType = 1 ∨ m.mbcType = 3 from hmbc)
  rw [if_neg h3]
  by_cases h4 : a &&& 0xFFFF < 0x8000
  · rw [if_pos h4]
    split_ifs <;> intro hmbc <;>
      exact h (show m.mbcType = 1 ∨ m.mbcType = 3 from hmbc)
  rw [if_neg h4]
  by_cases h5 : a &&& 0xFFFF < 0xA000
  · rw [if_pos h5]; exact h
  rw [if_neg h5]
  by_cases h6 : a &&& 0xFFFF < 0xC000
  · rw [if_pos h6]
    split_ifs <;> intro hmbc <;>
      exact h (show m.mbcType = 1 ∨ m.mbcType = 3 from hmbc)
  rw [if_neg h6]
  by_cases h7 : a &&& 0xFFFF < 0xE000
  · rw [if_pos h7]; exact h
  rw [if_neg h7]
  by_cases h8 : a &&& 0xFFFF < 0xFE00
  · rw [if_pos h8]; exact h
  rw [if_neg h8]
  by_cases h9 : a &&& 0xFFFF < 0xFEA0
  · rw [if_pos h9]; exact h
  rw [if_neg h9]
  by_cases h10 : a &&& 0xFFFF < 0xFF00
  · rw [if_pos h10]; exact h
  rw [if_neg h10]
  by_cases h11 : a &&& 0xFFFF < 0xFF80
  · rw [if_pos h11]
    intro hmbc
    have hw := writeIo_preserves_bank m (a &&& 0xFFFF) (v &&& 0xFF)
    rw [hw.2]
    exact h (by rw [← hw.1]; exact hmbc)
  rw [if_neg h11]
  by_cases h12 : a &&& 0xFFFF < 0xFFFF
  · rw [if_pos h12]; exact h
  rw [if_neg h12]
  exact h

theorem bankInv_applyWrites (ws : List (Nat × Nat)) :
    ∀ m : MMU, m.bankInv → (applyWrites m ws).bankInv := by
  induction ws with
  | nil => intro m h; exact h
  | cons p rest ih =>
    intro m h
    exact ih (m.write p.1 p.2) (bankInv_write m p.1 p.2 h)

/-- C2 amended: under any sequence of bus writes from a state satisfying the
bank invariant (which every freshly loaded cartridge does, since reset sets
`romBank = 1` and loading keeps it), the MBC3 effective switchable bank is
never 0, and for MBC1 the 7-bit bank selector before the modulo reduction is
never 0; the MBC1 effective bank after the `mod romBanks` reduction can
still be 0 (see the counterexample). -/
theorem mbc_bank_selector_nonzero (m : MMU) (ws : List (Nat × Nat))
    (h : m.bankInv) :
    ((applyWrites m ws).mbcType = 3 → (applyWrites m ws).effBank ≠ 0) ∧
    ((applyWrites m ws).mbcType = 1 →
      ((applyWrites m ws).ramBank <<< 5) ||| (applyWrites m ws).romBank ≠ 0) := by
  have hinv := bankInv_applyWrites ws m h
  constructor
  · intro h3
    have hr := hinv (Or.inr h3)
    unfold MMU.effBank
    rw [h3]
    norm_num
    exact hr
  · intro h1
    have hr := hinv (Or.inl h1)
    intro hor
    exact hr (or_eq_zero_right _ _ hor)

/-- Witness for the amended C2: the 2-bank MBC1 cartridge with the single
write of 0x02 to the bank register. -/
theorem mbc_bank_selector_nonzero_witness :
    ((applyWrites (mmuReset.loadROM mbc1SmallRom 0x8000) [(0x2000, 0x02)]).mbcType = 3 →
      (applyWrites (mmuReset.loadROM mbc1SmallRom 0x8000) [(0x2000, 0x02)]).effBank ≠ 0) ∧
    ((applyWrites (mmuReset.loadROM mbc1SmallRom 0x8000) [(0x2000, 0x02)]).mbcType = 1 →
      ((applyWrites (mmuReset.loadROM mbc1SmallRom 0x8000) [(0x2000, 0x02)]).ramBank <<< 5) |||
        (applyWrites (mmuReset.loadROM mbc1SmallRom 0x8000) [(0x2000, 0x02)]).romBank ≠ 0) :=
  mbc_bank_selector_nonzero (mmuReset.loadROM mbc1SmallRom 0x8000) [(0x2000, 0x02)]
    (fun _ => by decide)

/-! ## Claims about echo RAM (C8) -/

/-- A write into the direct work-RAM window stores the masked byte at
`addr - 0xC000`. -/
theorem write_wram_direct (m : MMU) (addr v : Nat)
    (h1 : 0xC000 ≤ addr) (h2 : addr < 0xE000) :
    m.write addr v = { m with wram := upd m.wram (addr - 0xC000) (v &&& 0xFF) } := by
  have n1 : ¬ addr < 0x2000 := by omega
  have n2 : ¬ addr < 0x4000 := by omega
  have n3 : ¬ addr < 0x6000 := by omega
  have n4 : ¬ addr < 0x8000 := by omega
  have n5 : ¬ addr < 0xA000 := by omega
  have n6 : ¬ addr < 0xC000 := by omega
  simp only [MMU.write, and_FFFF_of_lt addr (by omega)]
  rw [if_neg n1, if_neg n2, if_neg n3, if_neg n4, if_neg n5, if_neg n6,
      if_pos (show addr < 0xE000 by omega)]

/-- A write into the echo window stores the masked byte at `addr - 0xE000`
of work RAM. -/
theorem write_wram_echo (m : MMU) (addr v : Nat)
    (h1 : 0xE000 ≤ addr) (h2 : addr < 0xFE00) :
    m.write addr v = { m with wram := upd m.wram (addr - 0xE000) (v &&& 0xFF) } := by
  have n1 : ¬ addr < 0x2000 := by omega
  have n2 : ¬ addr < 0x4000 := by omega
  have n3 : ¬ addr < 0x6000 := by omega
  have n4 : ¬ addr < 0x8000 := by omega
  have n5 : ¬ addr < 0xA000 := by omega
  have n6 : ¬ addr < 0xC000 := by omega
  have n7 : ¬ addr < 0xE000 := by omega
  simp only [MMU.write, and_FFFF_of_lt addr (by omega)]
  rw [if_neg n1, if_neg n2, if_neg n3, if_neg n4, if_neg n5, if_neg n6, if_neg n7,
      if_pos (show addr < 0xFE00 by omega)]

/-- A read from the direct work-RAM window returns the byte at
`addr - 0xC000`. -/
theorem read_wram_direct (m : MMU) (addr : Nat)
    (h1 : 0xC000 ≤ addr) (h2 : addr < 0xE000) :
    m.read addr = m.wram (addr - 0xC000) := by
  have n1 : ¬ addr < 0x4000 := by omega
  have n2 : ¬ addr < 0x8000 := by omega
  have n3 : ¬ addr < 0xA000 := by omega
  have n4 : ¬ addr < 0xC000 := by omega
  simp only [MMU.read, and_FFFF_of_lt addr (by omega)]
  rw [if_neg n1, if_neg n2, if_neg n3, if_neg n4,
      if_pos (show addr < 0xE000 by omega)]

/-- A read from the echo window returns the work-RAM byte at
`addr - 0xE000`. -/
theorem read_wram_echo (m : MMU) (addr : Nat)
    (h1 : 0xE000 ≤ addr) (h2 : addr < 0xFE00) :
    m.read addr = m.wram (addr - 0xE000) := by
  have n1 : ¬ addr < 0x4000 := by omega
  have n2 : ¬ addr < 0x8000 := by omega
  have n3 : ¬ addr < 0xA000 := by omega
  have n4 : ¬ addr < 0xC000 := by omega
  have n5 : ¬ addr < 0xE000 := by omega
  simp only [MMU.read, and_FFFF_of_lt addr (by omega)]
  rw [if_neg n1, if_neg n2, if_neg n3, if_neg n4, if_neg n5,
      if_pos (show addr < 0xFE00 by omega)]

/-- C8 holds: for `k < 0x1E00`, a byte written through the echo window at
0xE000 + k is read back through work RAM at 0xC000 + k, and symmetrically;
both windows address the same work-RAM cell. -/
theorem echo_ram_alias (m : MMU) (k v : Nat) (hk : k < 0x1E00) (hv : v ≤ 0xFF) :
    (m.write (0xE000 + k) v).read (0xC000 + k) = v ∧
    (m.write (0xC000 + k) v).read (0xE000 + k) = v := by
  have hv' : v &&& 0xFF = v := and_FF_of_le v hv
  have hke : (0xE000 + k) - 0xE000 = k := by omega
  have hkc : (0xC000 + k) - 0xC000 = k := by omega
  constructor
  · rw [write_wram_echo m _ v (by omega) (by omega),
        read_wram_direct _ _ (by omega) (by omega), hke, hkc, hv']
    exact upd_same _ _ _
  · rw [write_wram_direct m _ v (by omega) (by omega),
        read_wram_echo _ _ (by omega) (by omega), hke, hkc, hv']
    exact upd_same _ _ _

/-- Witness for C8 at k = 5, v = 0xAB on the reset MMU. -/
theorem echo_ram_alias_witness :
    (mmuReset.write (0xE000 + 5) 0xAB).read (0xC000 + 5) = 0xAB ∧
    (mmuReset.write (0xC000 + 5) 0xAB).read (0xE000 + 5) = 0xAB :=
  echo_ram_alias mmuReset 5 0xAB (by decide) (by decide)

/-! ## Byte-range invariants for C10.

A `Uint8Array` cell always holds a byte; the invariants below state the
corresponding bounds for the function-modelled memories and for every device
register that `readIO` can surface, and are preserved by every bus write. -/

theorem or_le_byte {x y : Nat} (hx : x ≤ 0xFF) (hy : y ≤ 0xFF) : x ||| y ≤ 0xFF := by
  have h : x ||| y < 2 ^ 8 := Nat.or_lt_two_pow (by omega) (by omega)
  omega

theorem and_le_byte (x y : Nat) (hy : y ≤ 0xFF) : x &&& y ≤ 0xFF :=
  le_trans Nat.and_le_right hy

theorem upd_bytes {f : Nat → Nat} (i v : Nat) (hf : bytes f) (hv : v ≤ 0xFF) :
    bytes (upd f i v) := by
  intro j
  unfold upd
  split_ifs
  · exact hv
  · exact hf j

/-- An if-then-else of two bytes is a byte. -/
theorem ite_le_byte (c : Prop) [Decidable c] {x y : Nat}
    (hx : x ≤ 0xFF) (hy : y ≤ 0xFF) : (if c then x else y) ≤ 0xFF := by
  split
  · exact hx
  · exact hy

theorem inputRead_le (i : Input) (h : InputInv i) : i.read ≤ 0xFF := by
  have hp := h.p1
  have hb := h.buttons
  have hd := h.directions
  simp only [Input.read]
  split_ifs <;>
    first
    | exact or_le_byte (or_le_byte (and_le_byte _ _ (by norm_num)) (by omega)) (by norm_num)
    | exact or_le_byte (or_le_byte hp (by norm_num)) (by norm_num)

theorem ppuReadRegister_le (p : PPU) (h : PPUInv p) (addr : Nat) :
    p.readRegister addr ≤ 0xFF := by
  simp only [PPU.readRegister]
  by_cases c1 : addr = 0xFF40
  · rw [if_pos c1]; exact h.lcdc
  rw [if_neg c1]
  by_cases c2 : addr = 0xFF41
  · rw [if_pos c2]
    refine or_le_byte (or_le_byte (and_le_byte _ _ (by norm_num)) ?_)
      (le_trans h.mode (by norm_num))
    exact ite_le_byte _ (by norm_num) (by norm_num)
  rw [if_neg c2]
  by_cases c3 : addr = 0xFF42
  · rw [if_pos c3]; exact h.scy
  rw [if_neg c3]
  by_cases c4 : addr = 0xFF43
  · rw [if_pos c4]; exact h.scx
  rw [if_neg c4]
  by_cases c5 : addr = 0xFF44
  · rw [if_pos c5]; exact h.ly
  rw [if_neg c5]
  by_cases c6 : addr = 0xFF45
  · rw [if_pos c6]; exact h.lyc
  rw [if_neg c6]
  by_cases c7 : addr = 0xFF47
  · rw [if_pos c7]; exact h.bgp
  rw [if_neg c7]
  by_cases c8 : addr = 0xFF48
  · rw [if_pos c8]; exact h.obp0
  rw [if_neg c8]
  by_cases c9 : addr = 0xFF49
  · rw [if_pos c9]; exact h.obp1
  rw [if_neg c9]
  by_cases c10 : addr = 0xFF4A
  · rw [if_pos c10]; exact h.wy
  rw [if_neg c10]
  by_cases c11 : addr = 0xFF4B
  · rw [if_pos c11]; exact h.wx
  rw [if_neg c11]

theorem shl4_le {x : Nat} (h : x ≤ 15) : x <<< 4 ≤ 240 := by
  rw [Nat.shiftLeft_eq]; omega

theorem shl5_le {x : Nat} (h : x ≤ 3) : x <<< 5 ≤ 96 := by
  rw [Nat.shiftLeft_eq]; omega

theorem shl6_le {x : Nat} (h : x ≤ 3) : x <<< 6 ≤ 192 := by
  rw [Nat.shiftLeft_eq]; omega

theorem apuReadRegister_le (a : APU) (h : APUInv a) (addr : Nat) :
    a.readRegister addr ≤ 0xFF := by
  have h1 := h.volL; have h2 := h.volR
  have h3 := h.c1sp; have h4 := h.c1ss; have h5 := h.c1d
  have h6 := h.c1ei; have h7 := h.c1ep
  have h8 := h.c2d; have h9 := h.c2ei; have h10 := h.c2ep
  have h11 := h.c3v
  have h12 := h.c4ei; have h13 := h.c4ep; have h14 := h.c4cs; have h15 := h.c4dc
  have hw := h.wave
  simp only [APU.readRegister]
  by_cases c1 : addr = 0xFF10
  · rw [if_pos c1]
    exact or_le_byte (or_le_byte (or_le_byte (by norm_num)
      (le_trans (shl4_le (by omega)) (by norm_num)))
      (ite_le_byte _ (by norm_num) (by norm_num))) (by omega)
  rw [if_neg c1]
  by_cases c2 : addr = 0xFF11
  · rw [if_pos c2]
    exact or_le_byte (le_trans (shl6_le (by omega)) (by norm_num)) (by norm_num)
  rw [if_neg c2]
  by_cases c3 : addr = 0xFF12
  · rw [if_pos c3]
    exact or_le_byte (or_le_byte (le_trans (shl4_le (by omega)) (by norm_num))
      (ite_le_byte _ (by norm_num) (by norm_num))) (by omega)
  rw [if_neg c3]
  by_cases c4 : addr = 0xFF13
  · rw [if_pos c4]
  rw [if_neg c4]
  by_cases c5 : addr = 0xFF14
  · rw [if_pos c5]
    exact or_le_byte (ite_le_byte _ (by norm_num) (by norm_num)) (by norm_num)
  rw [if_neg c5]
  by_cases c6 : addr = 0xFF16
  · rw [if_pos c6]
    exact or_le_byte (le_trans (shl6_le (by omega)) (by norm_num)) (by norm_num)
  rw [if_neg c6]
  by_cases c7 : addr = 0xFF17
  · rw [if_pos c7]
    exact or_le_byte (or_le_byte (le_trans (shl4_le (by omega)) (by norm_num))
      (ite_le_byte _ (by norm_num) (by norm_num))) (by omega)
  rw [if_neg c7]
  by_cases c8 : addr = 0xFF18
  · rw [if_pos c8]
  rw [if_neg c8]
  by_cases c9 : addr = 0xFF19
  · rw [if_pos c9]
    exact or_le_byte (ite_le_byte _ (by norm_num) (by norm_num)) (by norm_num)
  rw [if_neg c9]
  by_cases c10 : addr = 0xFF1A
  · rw [if_pos c10]
    exact or_le_byte (ite_le_byte _ (by norm_num) (by norm_num)) (by norm_num)
  rw [if_neg c10]
  by_cases c11 : addr = 0xFF1B
  · rw [if_pos c11]
  rw [if_neg c11]
  by_cases c12 : addr = 0xFF1C
  · rw [if_pos c12]
    exact or_le_byte (le_trans (shl5_le (by omega)) (by norm_num)) (by norm_num)
  rw [if_neg c12]
  by_cases c13 : addr = 0xFF1D
  · rw [if_pos c13]
  rw [if_neg c13]
  by_cases c14 : addr = 0xFF1E
  · rw [if_pos c14]
    exact or_le_byte (ite_le_byte _ (by norm_num) (by norm_num)) (by norm_num)
  rw [if_neg c14]
  by_cases c15 : addr = 0xFF20
  · rw [if_pos c15]
  rw [if_neg c15]
  by_cases c16 : addr = 0xFF21
  · rw [if_pos c16]
    exact or_le_byte (or_le_byte (le_trans (shl4_le (by omega)) (by norm_num))
      (ite_le_byte _ (by norm_num) (by norm_num))) (by omega)
  rw [if_neg c16]
  by_cases c17 : addr = 0xFF22
  · rw [if_pos c17]
    exact or_le_byte (or_le_byte (le_trans (shl4_le (by omega)) (by norm_num))
      (ite_le_byte _ (by norm_num) (by norm_num))) (by omega)
  rw [if_neg c17]
  by_cases c18 : addr = 0xFF23
  · rw [if_pos c18]
    exact or_le_byte (ite_le_byte _ (by norm_num) (by norm_num)) (by norm_num)
  rw [if_neg c18]
  by_cases c19 : addr = 0xFF24
  · rw [if_pos c19]
    exact or_le_byte (or_le_byte (le_trans (shl4_le (by omega)) (by norm_num))
      (by omega)) (by norm_num)
  rw [if_neg c19]
  by_cases c20 : addr = 0xFF25
  · rw [if_pos c20]
    exact or_le_byte (or_le_byte (or_le_byte (or_le_byte (or_le_byte (or_le_byte
      (or_le_byte (ite_le_byte _ (by norm_num) (by norm_num))
        (ite_le_byte _ (by norm_num) (by norm_num)))
        (ite_le_byte _ (by norm_num) (by norm_num)))
        (ite_le_byte _ (by norm_num) (by norm_num)))
        (ite_le_byte _ (by norm_num) (by norm_num)))
        (ite_le_byte _ (by norm_num) (by norm_num)))
        (ite_le_byte _ (by norm_num) (by norm_num)))
        (ite_le_byte _ (by norm_num) (by norm_num))
  rw [if_neg c20]
  by_cases c21 : addr = 0xFF26
  · rw [if_pos c21]
    exact or_le_byte (or_le_byte (or_le_byte (or_le_byte (or_le_byte
      (ite_le_byte _ (by norm_num) (by norm_num)) (by norm_num))
      (ite_le_byte _ (by norm_num) (by norm_num)))
      (ite_le_byte _ (by norm_num) (by norm_num)))
      (ite_le_byte _ (by norm_num) (by norm_num)))
      (ite_le_byte _ (by norm_num) (by norm_num))
  rw [if_neg c21]
  by_cases c22 : 0xFF30 ≤ addr ∧ addr ≤ 0xFF3F
  · rw [if_pos c22]; exact hw _
  rw [if_neg c22]

theorem MMU.readIo_le (m : MMU) (h : MMUInv m) (addr : Nat) :
    m.readIo addr ≤ 0xFF := by
  have hio := h.io
  simp only [MMU.readIo]
  by_cases c1 : addr = 0xFF00
  · rw [if_pos c1]
    cases hi : m.input with
    | none => norm_num
    | some i => exact inputRead_le i (h.input i hi)
  rw [if_neg c1]
  by_cases c2 : addr = 0xFF04
  · rw [if_pos c2]
    cases ht : m.timer with
    | none => exact hio _
    | some t => exact (h.timer t ht).div
  rw [if_neg c2]
  by_cases c3 : addr = 0xFF05
  · rw [if_pos c3]
    cases ht : m.timer with
    | none => exact hio _
    | some t => exact (h.timer t ht).tima
  rw [if_neg c3]
  by_cases c4 : addr = 0xFF06
  · rw [if_pos c4]
    cases ht : m.timer with
    | none => exact hio _
    | some t => exact (h.timer t ht).tma
  rw [if_neg c4]
  by_cases c5 : addr = 0xFF07
  · rw [if_pos c5]
    cases ht : m.timer with
    | none => exact hio _
    | some t => exact or_le_byte (by have := (h.timer t ht).tac; omega) (by norm_num)
  rw [if_neg c5]
  by_cases c6 : addr = 0xFF0F
  · rw [if_pos c6]
    exact or_le_byte (hio _) (by norm_num)
  rw [if_neg c6]
  by_cases c7 : addr = 0xFF40 ∨ addr = 0xFF41 ∨ addr = 0xFF42 ∨ addr = 0xFF43 ∨
      addr = 0xFF44 ∨ addr = 0xFF45 ∨ addr = 0xFF47 ∨ addr = 0xFF48 ∨
      addr = 0xFF49 ∨ addr = 0xFF4A ∨ addr = 0xFF4B
  · rw [if_pos c7]
    cases hp : m.ppu with
    | none => exact hio _
    | some p => exact ppuReadRegister_le p (h.ppu p hp) _
  rw [if_neg c7]
  by_cases c8 : 0xFF10 ≤ addr ∧ addr ≤ 0xFF3F
  · rw [if_pos c8]
    cases ha : m.apu with
    | none => exact hio _
    | some a => exact apuReadRegister_le a (h.apu a ha) _
  rw [if_neg c8]
  exact hio _

theorem mmuRead_le (m : MMU) (h : MMUInv m) (addr : Nat) :
    m.read addr ≤ 0xFF := by
  simp only [MMU.read]
  by_cases c1 : addr &&& 0xFFFF < 0x4000
  · rw [if_pos c1]
    split_ifs <;> first | exact h.rom _ | norm_num
  rw [if_neg c1]
  by_cases c2 : addr &&& 0xFFFF < 0x8000
  · rw [if_pos c2]
    split_ifs <;> first | exact h.rom _ | norm_num
  rw [if_neg c2]
  by_cases c3 : addr &&& 0xFFFF < 0xA000
  · rw [if_pos c3]; exact h.vram _
  rw [if_neg c3]
  by_cases c4 : addr &&& 0xFFFF < 0xC000
  · rw [if_pos c4]
    split_ifs <;>
      first
      | exact h.rtcL.seconds
      | exact h.rtcL.minutes
      | exact h.rtcL.hours
      | exact h.rtcL.daysLow
      | exact h.rtcL.daysHigh
      | exact h.rtc.seconds
      | exact h.rtc.minutes
      | exact h.rtc.hours
      | exact h.rtc.daysLow
      | exact h.rtc.daysHigh
      | exact h.eram _
      | norm_num
  rw [if_neg c4]
  by_cases c5 : addr &&& 0xFFFF < 0xE000
  · rw [if_pos c5]; exact h.wram _
  rw [if_neg c5]
  by_cases c6 : addr &&& 0xFFFF < 0xFE00
  · rw [if_pos c6]; exact h.wram _
  rw [if_neg c6]
  by_cases c7 : addr &&& 0xFFFF < 0xFEA0
  · rw [if_pos c7]; exact h.oam _
  rw [if_neg c7]
  by_cases c8 : addr &&& 0xFFFF < 0xFF00
  · rw [if_pos c8]
  rw [if_neg c8]
  by_cases c9 : addr &&& 0xFFFF < 0xFF80
  · rw [if_pos c9]; exact MMU.readIo_le m h _
  rw [if_neg c9]
  by_cases c10 : addr &&& 0xFFFF < 0xFFFF
  · rw [if_pos c10]; exact h.hram _
  rw [if_neg c10]
  exact h.ie

theorem inputWrite_inv (i : Input) (v : Nat) (h : InputInv i) :
    InputInv (i.write v) :=
  ⟨or_le_byte (and_le_byte _ _ (by norm_num)) (and_le_byte _ _ (by norm_num)),
   h.buttons, h.directions⟩

theorem ppuWriteRegister_inv (p : PPU) (addr v : Nat) (h : PPUInv p)
    (hv : v ≤ 0xFF) : PPUInv (p.writeRegister addr v) := by
  simp only [PPU.writeRegister]
  by_cases c1 : addr = 0xFF40
  · rw [if_pos c1]
    split_ifs
    · exact ⟨hv, h.stat, h.scy, h.scx, by norm_num, h.lyc, h.wy, h.wx,
             h.bgp, h.obp0, h.obp1, by norm_num⟩
    · exact ⟨hv, h.stat, h.scy, h.scx, h.ly, h.lyc, h.wy, h.wx,
             h.bgp, h.obp0, h.obp1, h.mode⟩
  rw [if_neg c1]
  by_cases c2 : addr = 0xFF41
  · rw [if_pos c2]
    exact ⟨h.lcdc, or_le_byte (and_le_byte _ _ (by norm_num)) (and_le_byte _ _ (by norm_num)),
           h.scy, h.scx, h.ly, h.lyc, h.wy, h.wx, h.bgp, h.obp0, h.obp1, h.mode⟩
  rw [if_neg c2]
  by_cases c3 : addr = 0xFF42
  · rw [if_pos c3]
    exact ⟨h.lcdc, h.stat, hv, h.scx, h.ly, h.lyc, h.wy, h.wx, h.bgp, h.obp0, h.obp1, h.mode⟩
  rw [if_neg c3]
  by_cases c4 : addr = 0xFF43
  · rw [if_pos c4]
    exact ⟨h.lcdc, h.stat, h.scy, hv, h.ly, h.lyc, h.wy, h.wx, h.bgp, h.obp0, h.obp1, h.mode⟩
  rw [if_neg c4]
  by_cases c5 : addr = 0xFF45
  · rw [if_pos c5]
    exact ⟨h.lcdc, h.stat, h.scy, h.scx, h.ly, hv, h.wy, h.wx, h.bgp, h.obp0, h.obp1, h.mode⟩
  rw [if_neg c5]
  by_cases c6 : addr = 0xFF47
  · rw [if_pos c6]
    exact ⟨h.lcdc, h.stat, h.scy, h.scx, h.ly, h.lyc, h.wy, h.wx, hv, h.obp0, h.obp1, h.mode⟩
  rw [if_neg c6]
  by_cases c7 : addr = 0xFF48
  · rw [if_pos c7]
    exact ⟨h.lcdc, h.stat, h.scy, h.scx, h.ly, h.lyc, h.wy, h.wx, h.bgp, hv, h.obp1, h.mode⟩
  rw [if_neg c7]
  by_cases c8 : addr = 0xFF49
  · rw [if_pos c8]
    exact ⟨h.lcdc, h.stat, h.scy, h.scx, h.ly, h.lyc, h.wy, h.wx, h.bgp, h.obp0, hv, h.mode⟩
  rw [if_neg c8]
  by_cases c9 : addr = 0xFF4A
  · rw [if_pos c9]
    exact ⟨h.lcdc, h.stat, h.scy, h.scx, h.ly, h.lyc, hv, h.wx, h.bgp, h.obp0, h.obp1, h.mode⟩
  rw [if_neg c9]
  by_cases c10 : addr = 0xFF4B
  · rw [if_pos c10]
    exact ⟨h.lcdc, h.stat, h.scy, h.scx, h.ly, h.lyc, h.wy, hv, h.bgp, h.obp0, h.obp1, h.mode⟩
  rw [if_neg c10]
  exact h

theorem apuWriteRegister_inv (a : APU) (addr v : Nat) (h : APUInv a)
    (_hv : v ≤ 0xFF) : APUInv (a.writeRegister addr v) := by
  simp only [APU.writeRegister]
  by_cases c0 : ¬a.masterEnable ∧ addr ≠ 0xFF26 ∧ addr < 0xFF30
  · rw [if_pos c0]; exact h
  rw [if_neg c0]
  by_cases c1 : addr = 0xFF10
  · rw [if_pos c1]
    exact ⟨h.volL, h.volR, Nat.and_le_right, Nat.and_le_right, h.c1d, h.c1ei, h.c1ep,
           h.c2d, h.c2ei, h.c2ep, h.c3v, h.c4ei, h.c4ep, h.c4cs, h.c4dc, h.wave⟩
  rw [if_neg c1]
  by_cases c2 : addr = 0xFF11
  · rw [if_pos c2]
    exact ⟨h.volL, h.volR, h.c1sp, h.c1ss, Nat.and_le_right, h.c1ei, h.c1ep,
           h.c2d, h.c2ei, h.c2ep, h.c3v, h.c4ei, h.c4ep, h.c4cs, h.c4dc, h.wave⟩
  rw [if_neg c2]
  by_cases c3 : addr = 0xFF12
  · rw [if_pos c3]
    exact ⟨h.volL, h.volR, h.c1sp, h.c1ss, h.c1d, Nat.and_le_right, Nat.and_le_right,
           h.c2d, h.c2ei, h.c2ep, h.c3v, h.c4ei, h.c4ep, h.c4cs, h.c4dc, h.wave⟩
  rw [if_neg c3]
  by_cases c4 : addr = 0xFF13
  · rw [if_pos c4]
    exact ⟨h.volL, h.volR, h.c1sp, h.c1ss, h.c1d, h.c1ei, h.c1ep,
           h.c2d, h.c2ei, h.c2ep, h.c3v, h.c4ei, h.c4ep, h.c4cs, h.c4dc, h.wave⟩
  rw [if_neg c4]
  by_cases c5 : addr = 0xFF14
  · rw [if_pos c5]
    split_ifs <;>
      first
      | exact ⟨h.volL, h.volR, h.c1sp, h.c1ss, h.c1d, h.c1ei, h.c1ep,
               h.c2d, h.c2ei, h.c2ep, h.c3v, h.c4ei, h.c4ep, h.c4cs, h.c4dc, h.wave⟩
      | (simp only [APU.calculateSweep]
         split_ifs <;>
           exact ⟨h.volL, h.volR, h.c1sp, h.c1ss, h.c1d, h.c1ei, h.c1ep,
                  h.c2d, h.c2ei, h.c2ep, h.c3v, h.c4ei, h.c4ep, h.c4cs, h.c4dc, h.wave⟩)
  rw [if_neg c5]
  by_cases c6 : addr = 0xFF16
  · rw [if_pos c6]
    exact ⟨h.volL, h.volR, h.c1sp, h.c1ss, h.c1d, h.c1ei, h.c1ep,
           Nat.and_le_right, h.c2ei, h.c2ep, h.c3v, h.c4ei, h.c4ep, h.c4cs, h.c4dc, h.wave⟩
  rw [if_neg c6]
  by_cases c7 : addr = 0xFF17
  · rw [if_pos c7]
    exact ⟨h.volL, h.volR, h.c1sp, h.c1ss, h.c1d, h.c1ei, h.c1ep,
           h.c2d, Nat.and_le_right, Nat.and_le_right, h.c3v, h.c4ei, h.c4ep, h.c4cs,
           h.c4dc, h.wave⟩
  rw [if_neg c7]
  by_cases c8 : addr = 0xFF18
  · rw [if_pos c8]
    exact ⟨h.volL, h.volR, h.c1sp, h.c1ss, h.c1d, h.c1ei, h.c1ep,
           h.c2d, h.c2ei, h.c2ep, h.c3v, h.c4ei, h.c4ep, h.c4cs, h.c4dc, h.wave⟩
  rw [if_neg c8]
  by_cases c9 : addr = 0xFF19
  · rw [if_pos c9]
    split_ifs <;>
      exact ⟨h.volL, h.volR, h.c1sp, h.c1ss, h.c1d, h.c1ei, h.c1ep,
             h.c2d, h.c2ei, h.c2ep, h.c3v, h.c4ei, h.c4ep, h.c4cs, h.c4dc, h.wave⟩
  rw [if_neg c9]
  by_cases c10 : addr = 0xFF1A
  · rw [if_pos c10]
    exact ⟨h.volL, h.volR, h.c1sp, h.c1ss, h.c1d, h.c1ei, h.c1ep,
           h.c2d, h.c2ei, h.c2ep, h.c3v, h.c4ei, h.c4ep, h.c4cs, h.c4dc, h.wave⟩
  rw [if_neg c10]
  by_cases c11 : addr = 0xFF1B
  · rw [if_pos c11]
    exact ⟨h.volL, h.volR, h.c1sp, h.c1ss, h.c1d, h.c1ei, h.c1ep,
           h.c2d, h.c2ei, h.c2ep, h.c3v, h.c4ei, h.c4ep, h.c4cs, h.c4dc, h.wave⟩
  rw [if_neg c11]
  by_cases c12 : addr = 0xFF1C
  · rw [if_pos c12]
    exact ⟨h.volL, h.volR, h.c1sp, h.c1ss, h.c1d, h.c1ei, h.c1ep,
           h.c2d, h.c2ei, h.c2ep, Nat.and_le_right, h.c4ei, h.c4ep, h.c4cs, h.c4dc, h.wave⟩
  rw [if_neg c12]
  by_cases c13 : addr = 0xFF1D
  · rw [if_pos c13]
    exact ⟨h.volL, h.volR, h.c1sp, h.c1ss, h.c1d, h.c1ei, h.c1ep,
           h.c2d, h.c2ei, h.c2ep, h.c3v, h.c4ei, h.c4ep, h.c4cs, h.c4dc, h.wave⟩
  rw [if_neg c13]
  by_cases c14 : addr = 0xFF1E
  · rw [if_pos c14]
    split_ifs <;>
      exact ⟨h.volL, h.volR, h.c1sp, h.c1ss, h.c1d, h.c1ei, h.c1ep,
             h.c2d, h.c2ei, h.c2ep, h.c3v, h.c4ei, h.c4ep, h.c4cs, h.c4dc, h.wave⟩
  rw [if_neg c14]
  by_cases c15 : addr = 0xFF20
  · rw [if_pos c15]
    exact ⟨h.volL, h.volR, h.c1sp, h.c1ss, h.c1d, h.c1ei, h.c1ep,
           h.c2d, h.c2ei, h.c2ep, h.c3v, h.c4ei, h.c4ep, h.c4cs, h.c4dc, h.wave⟩
  rw [if_neg c15]
  by_cases c16 : addr = 0xFF21
  · rw [if_pos c16]
    exact ⟨h.volL, h.volR, h.c1sp, h.c1ss, h.c1d, h.c1ei, h.c1ep,
           h.c2d, h.c2ei, h.c2ep, h.c3v, Nat.and_le_right, Nat.and_le_right, h.c4cs,
           h.c4dc, h.wave⟩
  rw [if_neg c16]
  by_cases c17 : addr = 0xFF22
  · rw [if_pos c17]
    exact ⟨h.volL, h.volR, h.c1sp, h.c1ss, h.c1d, h.c1ei, h.c1ep,
           h.c2d, h.c2ei, h.c2ep, h.c3v, h.c4ei, h.c4ep, Nat.and_le_right,
           Nat.and_le_right, h.wave⟩
  rw [if_neg c17]
  by_cases c18 : addr = 0xFF23
  · rw [if_pos c18]
    split_ifs <;>
      exact ⟨h.volL, h.volR, h.c1sp, h.c1ss, h.c1d, h.c1ei, h.c1ep,
             h.c2d, h.c2ei, h.c2ep, h.c3v, h.c4ei, h.c4ep, h.c4cs, h.c4dc, h.wave⟩
  rw [if_neg c18]
  by_cases c19 : addr = 0xFF24
  · rw [if_pos c19]
    exact ⟨Nat.and_le_right, Nat.and_le_right, h.c1sp, h.c1ss, h.c1d, h.c1ei, h.c1ep,
           h.c2d, h.c2ei, h.c2ep, h.c3v, h.c4ei, h.c4ep, h.c4cs, h.c4dc, h.wave⟩
  rw [if_neg c19]
  by_cases c20 : addr = 0xFF25
  · rw [if_pos c20]
    exact ⟨h.volL, h.volR, h.c1sp, h.c1ss, h.c1d, h.c1ei, h.c1ep,
           h.c2d, h.c2ei, h.c2ep, h.c3v, h.c4ei, h.c4ep, h.c4cs, h.c4dc, h.wave⟩
  rw [if_neg c20]
  by_cases c21 : addr = 0xFF26
  · rw [if_pos c21]
    split_ifs <;>
      exact ⟨h.volL, h.volR, h.c1sp, h.c1ss, h.c1d, h.c1ei, h.c1ep,
             h.c2d, h.c2ei, h.c2ep, h.c3v, h.c4ei, h.c4ep, h.c4cs, h.c4dc, h.wave⟩
  rw [if_neg c21]
  by_cases c22 : 0xFF30 ≤ addr ∧ addr ≤ 0xFF3F
  · rw [if_pos c22]
    exact ⟨h.volL, h.volR, h.c1sp, h.c1ss, h.c1d, h.c1ei, h.c1ep,
           h.c2d, h.c2ei, h.c2ep, h.c3v, h.c4ei, h.c4ep, h.c4cs, h.c4dc,
           upd_bytes _ _ h.wave (and_le_byte _ _ (by norm_num))⟩
  rw [if_neg c22]
  exact h

theorem dmaTransfer_inv (m : MMU) (v : Nat) (h : MMUInv m) :
    MMUInv (m.dmaTransfer v) := by
  refine ⟨h.rom, h.vram, h.eram, h.wram, ?_, h.hram, h.io, h.ie, h.rtc, h.rtcL,
          h.timer, h.ppu, h.input, h.apu⟩
  intro i
  show (if i < 0xA0 then m.read ((v <<< 8) + i) else m.oam i) ≤ 0xFF
  split
  · exact mmuRead_le m h _
  · exact h.oam i

theorem setIo_inv (m : MMU) (r v : Nat) (h : MMUInv m) (hv : v ≤ 0xFF) :
    MMUInv (m.setIo r v) :=
  ⟨h.rom, h.vram, h.eram, h.wram, h.oam, h.hram, upd_bytes _ _ h.io hv, h.ie,
   h.rtc, h.rtcL, h.timer, h.ppu, h.input, h.apu⟩

theorem fwdInput_inv (m : MMU) (v : Nat) (h : MMUInv m) :
    MMUInv (m.fwdInput v) := by
  unfold MMU.fwdInput
  cases hi : m.input with
  | none => exact h
  | some i =>
    refine ⟨h.rom, h.vram, h.eram, h.wram, h.oam, h.hram, h.io, h.ie, h.rtc, h.rtcL,
            h.timer, h.ppu, ?_, h.apu⟩
    intro j hj
    obtain rfl : i.write v = j := Option.some.inj hj
    exact inputWrite_inv i v (h.input i hi)

theorem fwdTimer_inv (m : MMU) (f : Timer → Timer) (h : MMUInv m)
    (hf : ∀ t, TimerInv t → TimerInv (f t)) : MMUInv (m.fwdTimer f) := by
  unfold MMU.fwdTimer
  cases ht : m.timer with
  | none => exact h
  | some t =>
    refine ⟨h.rom, h.vram, h.eram, h.wram, h.oam, h.hram, h.io, h.ie, h.rtc, h.rtcL,
            ?_, h.ppu, h.input, h.apu⟩
    intro u hu
    obtain rfl : f t = u := Option.some.inj hu
    exact hf t (h.timer t ht)

theorem fwdPpu_inv (m : MMU) (a v : Nat) (h : MMUInv m) (hv : v ≤ 0xFF) :
    MMUInv (m.fwdPpu a v) := by
  unfold MMU.fwdPpu
  cases hp : m.ppu with
  | none => exact h
  | some p =>
    refine ⟨h.rom, h.vram, h.eram, h.wram, h.oam, h.hram, h.io, h.ie, h.rtc, h.rtcL,
            h.timer, ?_, h.input, h.apu⟩
    intro q hq
    obtain rfl : p.writeRegister a v = q := Option.some.inj hq
    exact ppuWriteRegister_inv p a v (h.ppu p hp) hv

theorem fwdApu_inv (m : MMU) (a v : Nat) (h : MMUInv m) (hv : v ≤ 0xFF) :
    MMUInv (m.fwdApu a v) := by
  unfold MMU.fwdApu
  cases ha : m.apu with
  | none => exact h
  | some x =>
    refine ⟨h.rom, h.vram, h.eram, h.wram, h.oam, h.hram, h.io, h.ie, h.rtc, h.rtcL,
            h.timer, h.ppu, h.input, ?_⟩
    intro y hy
    obtain rfl : x.writeRegister a v = y := Option.some.inj hy
    exact apuWriteRegister_inv x a v (h.apu x ha) hv

theorem MMU.writeIo_inv (m : MMU) (addr value : Nat) (h : MMUInv m)
    (hv : value ≤ 0xFF) : MMUInv (m.writeIo addr value) := by
  simp only [MMU.writeIo]
  by_cases c1 : addr = 0xFF00
  · rw [if_pos c1]; exact setIo_inv _ _ _ (fwdInput_inv m value h) hv
  rw [if_neg c1]
  by_cases c2 : addr = 0xFF04
  · rw [if_pos c2]
    exact setIo_inv _ _ _
      (fwdTimer_inv m _ h (fun t ht => ⟨by norm_num, ht.tima, ht.tma, ht.tac⟩))
      (by norm_num)
  rw [if_neg c2]
  by_cases c3 : addr = 0xFF05
  · rw [if_pos c3]
    exact setIo_inv _ _ _
      (fwdTimer_inv m _ h (fun t ht => ⟨ht.div, hv, ht.tma, ht.tac⟩)) hv
  rw [if_neg c3]
  by_cases c4 : addr = 0xFF06
  · rw [if_pos c4]
    exact setIo_inv _ _ _
      (fwdTimer_inv m _ h (fun t ht => ⟨ht.div, ht.tima, hv, ht.tac⟩)) hv
  rw [if_neg c4]
  by_cases c5 : addr = 0xFF07
  · rw [if_pos c5]
    exact setIo_inv _ _ _
      (fwdTimer_inv m _ h (fun t ht => ⟨ht.div, ht.tima, ht.tma, Nat.and_le_right⟩)) hv
  rw [if_neg c5]
  by_cases c6 : addr = 0xFF0F
  · rw [if_pos c6]; exact setIo_inv _ _ _ h (and_le_byte _ _ (by norm_num))
  rw [if_neg c6]
  by_cases c7 : addr = 0xFF40 ∨ addr = 0xFF41 ∨ addr = 0xFF42 ∨ addr = 0xFF43 ∨
      addr = 0xFF45 ∨ addr = 0xFF46
  · rw [if_pos c7]
    refine setIo_inv _ _ _ (fwdPpu_inv _ _ _ ?_ hv) hv
    split
    · exact dmaTransfer_inv m value h
    · exact h
  rw [if_neg c7]
  by_cases c8 : addr = 0xFF47 ∨ addr = 0xFF48 ∨ addr = 0xFF49 ∨ addr = 0xFF4A ∨
      addr = 0xFF4B
  · rw [if_pos c8]; exact setIo_inv _ _ _ (fwdPpu_inv _ _ _ h hv) hv
  rw [if_neg c8]
  by_cases c9 : 0xFF10 ≤ addr ∧ addr ≤ 0xFF3F
  · rw [if_pos c9]; exact setIo_inv _ _ _ (fwdApu_inv _ _ _ h hv) hv
  rw [if_neg c9]
  exact setIo_inv _ _ _ h hv

theorem mmuWrite_inv (m : MMU) (a v : Nat) (h : MMUInv m) :
    MMUInv (m.write a v) := by
  have hv : v &&& 0xFF ≤ 0xFF := and_le_byte _ _ (by norm_num)
  simp only [MMU.write]
  by_cases c1 : a &&& 0xFFFF < 0x2000
  · rw [if_pos c1]
    exact ⟨h.rom, h.vram, h.eram, h.wram, h.oam, h.hram, h.io, h.ie, h.rtc, h.rtcL,
           h.timer, h.ppu, h.input, h.apu⟩
  rw [if_neg c1]
  by_cases c2 : a &&& 0xFFFF < 0x4000
  · rw [if_pos c2]
    split_ifs <;>
      exact ⟨h.rom, h.vram, h.eram, h.wram, h.oam, h.hram, h.io, h.ie, h.rtc, h.rtcL,
             h.timer, h.ppu, h.input, h.apu⟩
  rw [if_neg c2]
  by_cases c3 : a &&& 0xFFFF < 0x6000
  · rw [if_pos c3]
    split_ifs <;>
      exact ⟨h.rom, h.vram, h.eram, h.wram, h.oam, h.hram, h.io, h.ie, h.rtc, h.rtcL,
             h.timer, h.ppu, h.input, h.apu⟩
  rw [if_neg c3]
  by_cases c4 : a &&& 0xFFFF < 0x8000
  · rw [if_pos c4]
    split_ifs <;>
      first
      | exact ⟨h.rom, h.vram, h.eram, h.wram, h.oam, h.hram, h.io, h.ie, h.rtc, h.rtcL,
               h.timer, h.ppu, h.input, h.apu⟩
      | exact ⟨h.rom, h.vram, h.eram, h.wram, h.oam, h.hram, h.io, h.ie, h.rtc, h.rtc,
               h.timer, h.ppu, h.input, h.apu⟩
  rw [if_neg c4]
  by_cases c5 : a &&& 0xFFFF < 0xA000
  · rw [if_pos c5]
    exact ⟨h.rom, upd_bytes _ _ h.vram hv, h.eram, h.wram, h.oam, h.hram, h.io, h.ie,
           h.rtc, h.rtcL, h.timer, h.ppu, h.input, h.apu⟩
  rw [if_neg c5]
  by_cases c6 : a &&& 0xFFFF < 0xC000
  · rw [if_pos c6]
    split_ifs <;>
      first
      | exact ⟨h.rom, h.vram, h.eram, h.wram, h.oam, h.hram, h.io, h.ie, h.rtc, h.rtcL,
               h.timer, h.ppu, h.input, h.apu⟩
      | exact ⟨h.rom, h.vram, h.eram, h.wram, h.oam, h.hram, h.io, h.ie,
               ⟨and_le_byte _ _ (by norm_num), h.rtc.minutes, h.rtc.hours,
                h.rtc.daysLow, h.rtc.daysHigh⟩, h.rtcL, h.timer, h.ppu, h.input, h.apu⟩
      | exact ⟨h.rom, h.vram, h.eram, h.wram, h.oam, h.hram, h.io, h.ie,
               ⟨h.rtc.seconds, and_le_byte _ _ (by norm_num), h.rtc.hours,
                h.rtc.daysLow, h.rtc.daysHigh⟩, h.rtcL, h.timer, h.ppu, h.input, h.apu⟩
      | exact ⟨h.rom, h.vram, h.eram, h.wram, h.oam, h.hram, h.io, h.ie,
               ⟨h.rtc.seconds, h.rtc.minutes, and_le_byte _ _ (by norm_num),
                h.rtc.daysLow, h.rtc.daysHigh⟩, h.rtcL, h.timer, h.ppu, h.input, h.apu⟩
      | exact ⟨h.rom, h.vram, h.eram, h.wram, h.oam, h.hram, h.io, h.ie,
               ⟨h.rtc.seconds, h.rtc.minutes, h.rtc.hours, hv, h.rtc.daysHigh⟩,
               h.rtcL, h.timer, h.ppu, h.input, h.apu⟩
      | exact ⟨h.rom, h.vram, h.eram, h.wram, h.oam, h.hram, h.io, h.ie,
               ⟨h.rtc.seconds, h.rtc.minutes, h.rtc.hours, h.rtc.daysLow,
                and_le_byte _ _ (by norm_num)⟩, h.rtcL, h.timer, h.ppu, h.input, h.apu⟩
      | exact ⟨h.rom, h.vram, upd_bytes _ _ h.eram hv, h.wram, h.oam, h.hram, h.io,
               h.ie, h.rtc, h.rtcL, h.timer, h.ppu, h.input, h.apu⟩
  rw [if_neg c6]
  by_cases c7 : a &&& 0xFFFF < 0xE000
  · rw [if_pos c7]
    exact ⟨h.rom, h.vram, h.eram, upd_bytes _ _ h.wram hv, h.oam, h.hram, h.io, h.ie,
           h.rtc, h.rtcL, h.timer, h.ppu, h.input, h.apu⟩
  rw [if_neg c7]
  by_cases c8 : a &&& 0xFFFF < 0xFE00
  · rw [if_pos c8]
    exact ⟨h.rom, h.vram, h.eram, upd_bytes _ _ h.wram hv, h.oam, h.hram, h.io, h.ie,
           h.rtc, h.rtcL, h.timer, h.ppu, h.input, h.apu⟩
  rw [if_neg c8]
  by_cases c9 : a &&& 0xFFFF < 0xFEA0
  · rw [if_pos c9]
    exact ⟨h.rom, h.vram, h.eram, h.wram, upd_bytes _ _ h.oam hv, h.hram, h.io, h.ie,
           h.rtc, h.rtcL, h.timer, h.ppu, h.input, h.apu⟩
  rw [if_neg c9]
  by_cases c10 : a &&& 0xFFFF < 0xFF00
  · rw [if_pos c10]; exact h
  rw [if_neg c10]
  by_cases c11 : a &&& 0xFFFF < 0xFF80
  · rw [if_pos c11]; exact MMU.writeIo_inv m _ _ h hv
  rw [if_neg c11]
  by_cases c12 : a &&& 0xFFFF < 0xFFFF
  · rw [if_pos c12]
    exact ⟨h.rom, h.vram, h.eram, h.wram, h.oam, upd_bytes _ _ h.hram hv, h.io, h.ie,
           h.rtc, h.rtcL, h.timer, h.ppu, h.input, h.apu⟩
  rw [if_neg c12]
  exact ⟨h.rom, h.vram, h.eram, h.wram, h.oam, h.hram, h.io, hv,
         h.rtc, h.rtcL, h.timer, h.ppu, h.input, h.apu⟩

/-- Every constant-zero memory is byte-valued. -/
theorem zero_bytes : bytes (fun _ => 0) := fun _ => by norm_num

theorem foldl_upd_bytes (ps : List (Nat × Nat)) (hps : ∀ q ∈ ps, q.2 ≤ 0xFF) :
    ∀ f, bytes f → bytes (ps.foldl (fun g q => upd g q.1 q.2) f) := by
  induction ps with
  | nil => intro f hf; exact hf
  | cons q rest ih =>
    intro f hf
    exact ih (fun r hr => hps r (List.mem_cons_of_mem q hr)) _
      (upd_bytes _ _ hf (hps q (List.mem_cons_self q rest)))

/-- The MMU wired by the Emulator constructor satisfies the byte invariant. -/
theorem emuMMU_inv : MMUInv emuMMU := by
  refine ⟨zero_bytes, zero_bytes, zero_bytes, zero_bytes, zero_bytes, zero_bytes,
          foldl_upd_bytes initIoPairs (by decide) _ zero_bytes, by decide,
          by constructor <;> decide, by constructor <;> decide, ?_, ?_, ?_, ?_⟩
  · intro t ht
    obtain rfl : timerReset = t := Option.some.inj ht
    constructor <;> decide
  · intro p hp
    obtain rfl : ppuReset = p := Option.some.inj hp
    constructor <;> decide
  · intro i hi
    obtain rfl : inputReset = i := Option.some.inj hi
    constructor <;> decide
  · intro x hx
    obtain rfl : apuInit = x := Option.some.inj hx
    constructor <;> first | exact zero_bytes | decide

/-- C10 holds: on any machine state satisfying the byte invariant (which the
freshly wired MMU does, and which every bus write preserves — this is the
sense in which every state reachable through the public bus interface is
covered), `MMU.read` is total and returns a value in [0, 255] for every
16-bit address, including the IO reads forwarded to the timer, pixel unit,
sound unit, input latch and the RTC register views. -/
theorem mmu_read_total (m : MMU) (h : MMUInv m) :
    MMUInv emuMMU ∧ (∀ addr, m.read addr ≤ 0xFF) ∧ (∀ a v, MMUInv (m.write a v)) :=
  ⟨emuMMU_inv, fun addr => mmuRead_le m h addr, fun a v => mmuWrite_inv m a v h⟩

/-- Witness for C10 on the freshly wired MMU. -/
theorem mmu_read_total_witness :
    MMUInv emuMMU ∧ (∀ addr, emuMMU.read addr ≤ 0xFF) ∧
      (∀ a v, MMUInv (emuMMU.write a v)) :=
  mmu_read_total emuMMU emuMMU_inv

/-! ## Claims about CPU cycle counts and the frame loop (C9), and the
EI latch (C1). -/

/-- Every opcode body in 0x00-0x3F returns between 4 and 24 cycles. -/
theorem execLow_cycles (m : Machine) (op : Nat) :
    4 ≤ (execLow m op).2 ∧ (execLow m op).2 ≤ 24 := by
  rw [execLow.eq_def]
  split <;> (try dsimp only) <;> (try split) <;> norm_num

/-- Every opcode body in 0xC0-0xFF returns between 4 and 24 cycles. -/
theorem execHigh_cycles (m : Machine) (op : Nat) :
    4 ≤ (execHigh m op).2 ∧ (execHigh m op).2 ≤ 24 := by
  rw [execHigh.eq_def]
  split <;> (try dsimp only) <;> (try split) <;> norm_num

/-- The LD r, r' family returns 4 or 8 cycles. -/
theorem ldrr_cycles (m : Machine) (dst src : Nat) :
    4 ≤ (ldrr m dst src).2 ∧ (ldrr m dst src).2 ≤ 24 := by
  unfold ldrr
  dsimp only
  split <;> norm_num

/-- The arithmetic families return 4 or 8 cycles. -/
theorem aluOp_cycles (m : Machine) (k r : Nat) :
    4 ≤ (aluOp m k r).2 ∧ (aluOp m k r).2 ≤ 24 := by
  rw [aluOp.eq_def]
  (try dsimp only)
  split <;> (try dsimp only) <;> (try split) <;> norm_num

/-- The CB rotate/shift families return 8 or 16 cycles. -/
theorem cbRot_cycles (m : Machine) (k r : Nat) :
    4 ≤ (cbRot m k r).2 ∧ (cbRot m k r).2 ≤ 24 := by
  unfold cbRot
  (try dsimp only)
  split <;> norm_num

/-- `CPU.execute` returns between 4 and 24 cycles for every opcode,
including the undefined and out-of-table ones. -/
theorem execute_cycles (m : Machine) (op : Nat) :
    4 ≤ (execute m op).2 ∧ (execute m op).2 ≤ 24 := by
  unfold execute
  split_ifs <;>
    first
      | apply execLow_cycles
      | apply ldrr_cycles
      | apply aluOp_cycles
      | apply execHigh_cycles
      | norm_num

/-- `CPU.executeCB` returns between 8 and 16 cycles for every opcode. -/
theorem executeCB_cycles (m : Machine) (op : Nat) :
    4 ≤ (executeCB m op).2 ∧ (executeCB m op).2 ≤ 24 := by
  unfold executeCB
  split_ifs <;>
    first
      | apply cbRot_cycles
      | (refine ⟨?_, ?_⟩ <;> (try dsimp only) <;> norm_num)

/-- `handleInterrupts` returns 0 (nothing dispatched) or 20 cycles. -/
theorem handleInterrupts_cycles (m : Machine) :
    m.handleInterrupts.2 = 0 ∨ m.handleInterrupts.2 = 20 := by
  unfold Machine.handleInterrupts
  (try dsimp only)
  split_ifs <;> norm_num

/-- The step body always returns between 4 and 24 cycles: the interrupt
dispatch path returns 20, the halted path 4, and every opcode body is in
range. -/
theorem stepCore_cycles (m : Machine) :
    4 ≤ m.stepCore.2 ∧ m.stepCore.2 ≤ 24 := by
  unfold Machine.stepCore
  (try dsimp only)
  split_ifs <;>
    first
      | (rcases handleInterrupts_cycles m with h | h <;> omega)
      | apply executeCB_cycles
      | apply execute_cycles

/-- `CPU.step` always returns between 4 and 24 cycles. -/
theorem step_cycles (m0 : Machine) :
    4 ≤ m0.step.2 ∧ m0.step.2 ≤ 24 := by
  unfold Machine.step
  exact stepCore_cycles _

/-- With fuel covering the worst case (every step only 4 cycles), the
frame loop always leaves with the budget reached. -/
theorem frameLoop_reaches (devs : Nat → Machine → Machine) (fuel : Nat) :
    ∀ (m : Machine) (cycles : Nat), cyclesPerFrame ≤ cycles + 4 * fuel →
      cyclesPerFrame ≤ frameLoop devs fuel m cycles := by
  induction fuel with
  | zero => intro m cycles h; simpa [frameLoop] using h
  | succ n ih =>
    intro m cycles h
    rw [frameLoop]
    by_cases hc : cycles < cyclesPerFrame
    · rw [if_pos hc]
      exact ih _ _ (by have := (step_cycles m).1; omega)
    · rw [if_neg hc]
      omega

/-- C9 holds: on every machine state, `CPU.step` returns a strictly
positive cycle count between 4 and 24 — covering the halted path, the
interrupt-dispatch path and the unknown-opcode paths — and consequently
the Emulator frame loop accumulating those counts toward the 70224-cycle
budget terminates: 70224 / 4 = 17556 iterations always suffice to leave
the loop with the budget reached, whatever the timer/PPU/APU updates do
to the machine in between. -/
theorem cpu_step_cycles_frame_terminates :
    (∀ m : Machine, 4 ≤ m.step.2 ∧ m.step.2 ≤ 24) ∧
    (∀ (devs : Nat → Machine → Machine) (m : Machine),
      cyclesPerFrame ≤ frameLoop devs 17556 m 0) :=
  ⟨step_cycles, fun devs m => frameLoop_reaches devs 17556 m 0 (by norm_num [cyclesPerFrame])⟩

/-- C1 fails on the code: the scheduled-IME latch is applied at the top of
the *next* `CPU.step` call, before that step's interrupt check, so a
pending interrupt is dispatched without the instruction after EI ever
executing. Concretely, with EI at 0x0100, a NOP at 0x0101, IE = 0x01 and
the boot value IF = 0xE1 (V-Blank already pending): the first step
executes EI (4 cycles, PC = 0x0101, latch set, IME still false); an
interrupt is pending before the second step, yet the second step returns
the 20-cycle dispatch path — PC jumps to the 0x0040 vector, the pushed
return address is 0x0101 (bytes 0x01 at 0xFFFD and 0xFFFC), and the CPU
instruction-cycle counter still holds only EI's 4 cycles, so the NOP at
0x0101 was never fetched or executed before the dispatch, contradicting
the claim. -/
theorem ei_latch_dispatches_without_next_instruction :
    c1Machine.mmu.read 0x0100 = 0xFB ∧
    (c1Machine.step.2 = 4 ∧
     c1Machine.step.1.cpu.pc = 0x0101 ∧
     c1Machine.step.1.cpu.imeScheduled = true ∧
     c1Machine.step.1.cpu.ime = false) ∧
    (c1Machine.step.1.mmu.ie &&& c1Machine.step.1.mmu.io 0x0F &&& 0x1F ≠ 0) ∧
    (c1Machine.step.1.step.2 = 20 ∧
     c1Machine.step.1.step.1.cpu.pc = 0x0040 ∧
     c1Machine.step.1.step.1.mmu.read 0xFFFD = 0x01 ∧
     c1Machine.step.1.step.1.mmu.read 0xFFFC = 0x01 ∧
     c1Machine.step.1.step.1.cpu.cycles = 4) := by
  decide

end GB
